import Mathlib

/-!
# sgacrawl: the configuration gate `checkConfig` of `cmd/root.go`

A shallow embedding of `checkConfig` and `UnescapeWhitespace`.

* The viper configuration store is an explicit value threaded through the
  function: a list of key/value bindings in which a later `Set` shadows an
  earlier binding, as viper's override layer does.
* `checkConfig` returns the store as it is left by the call, the text written
  to standard output, and the returned `error` (`none` for `nil`).
* The constants `FilterLevel_*` and `FilterPeriod_*` are declared in another
  file of the package; they are fields of `Env`, as are the two Go library
  functions whose tables are not reproduced here (`strings.ToLower`,
  `strconv.ParseInt`). Every theorem holds for every `Env`.
* Go strings are modelled by Lean strings (sequences of Unicode code points).
-/

set_option autoImplicit false

namespace Sgacrawl

/-! ## The configuration store -/

/-- A value held in the store: string, integer, boolean or list of strings. -/
inductive Value where
  | str (s : String)
  | int (i : Int)
  | bool (b : Bool)
  | strs (l : List String)
  deriving DecidableEq, Repr

/-- The store: bindings of dotted key paths, the most recent first. -/
abbrev Store := List (String × Value)

/-- The parameters of the embedding: package constants declared outside
`root.go`, and library functions that are not reproduced. -/
structure Env where
  FilterLevel_All : String
  FilterLevel_Grado : String
  FilterLevel_Ingreso : String
  FilterLevel_Posgrado : String
  FilterLevel_EducacionEjecutiva : String
  FilterPeriod_Semester2 : String
  FilterPeriod_Semester1 : String
  FilterPeriod_All : String
  FilterPeriod_Summer : String
  FilterPeriod_Special : String
  /-- Go `strings.ToLower`. -/
  ToLower : String → String
  /-- Go `strconv.ParseInt(s, 0, 0)`, `none` when it returns an error. -/
  ParseInt : String → Option Int

/-- Removal of repeated keys, keeping the last occurrence. -/
def dedupKeys : List String → List String
  | [] => []
  | k :: ks => if k ∈ dedupKeys ks then dedupKeys ks else k :: dedupKeys ks

/-- The `viper.AllKeys` call: the keys that have a binding. -/
def AllKeys (s : Store) : List String :=
  dedupKeys (s.map Prod.fst)

/-- The `viper.Get` call: the most recent binding of the key, if any. -/
def Get (s : Store) (key : String) : Option Value :=
  List.lookup key s

/-- The `viper.Set` call: a new binding that shadows the older ones. -/
def Set (s : Store) (key : String) (value : Value) : Store :=
  (key, value) :: s

/-- Go `strconv.ParseBool`. -/
def ParseBool (str : String) : Option Bool :=
  if str ∈ ["1", "t", "T", "TRUE", "true", "True"] then some true
  else if str ∈ ["0", "f", "F", "FALSE", "false", "False"] then some false
  else none

/-- The `unicode.IsSpace` predicate of Go. -/
def IsSpace (c : Char) : Bool :=
  let n := c.toNat
  n = 0x09 || n = 0x0A || n = 0x0B || n = 0x0C || n = 0x0D || n = 0x20 ||
  n = 0x85 || n = 0xA0 || n = 0x1680 || (0x2000 ≤ n && n ≤ 0x200A) ||
  n = 0x2028 || n = 0x2029 || n = 0x202F || n = 0x205F || n = 0x3000

/-- Go `strings.Fields` on a list of characters: `cur` is the field being
read, in reverse. -/
def fieldsAux : List Char → List Char → List String
  | [], cur => if cur = [] then [] else [String.mk cur.reverse]
  | c :: cs, cur =>
    if IsSpace c then
      (if cur = [] then fieldsAux cs [] else String.mk cur.reverse :: fieldsAux cs [])
    else fieldsAux cs (c :: cur)

/-- Go `strings.Fields`: the maximal runs of non-space characters. -/
def Fields (str : String) : List String :=
  fieldsAux str.data []

/-- The conversion `cast.ToString` used by `viper.GetString`. -/
def ToString : Option Value → String
  | some (Value.str s) => s
  | some (Value.int i) => toString i
  | some (Value.bool b) => if b then "true" else "false"
  | some (Value.strs _) => ""
  | none => ""

/-- The conversion `cast.ToInt` used by `viper.GetInt`. -/
def ToInt (E : Env) : Option Value → Int
  | some (Value.int i) => i
  | some (Value.str s) => (E.ParseInt s).getD 0
  | some (Value.bool b) => if b then 1 else 0
  | some (Value.strs _) => 0
  | none => 0

/-- The conversion `cast.ToBool` used by `viper.GetBool`. -/
def ToBool : Option Value → Bool
  | some (Value.bool b) => b
  | some (Value.int i) => i != 0
  | some (Value.str s) => (ParseBool s).getD false
  | some (Value.strs _) => false
  | none => false

/-- The conversion `cast.ToStringSlice` used by `viper.GetStringSlice`. -/
def ToStringSlice : Option Value → List String
  | some (Value.strs l) => l
  | some (Value.str s) => Fields s
  | some (Value.int i) => [toString i]
  | some (Value.bool b) => [if b then "true" else "false"]
  | none => []

def GetString (s : Store) (key : String) : String :=
  ToString (Get s key)

def GetInt (E : Env) (s : Store) (key : String) : Int :=
  ToInt E (Get s key)

def GetBool (s : Store) (key : String) : Bool :=
  ToBool (Get s key)

def GetStringSlice (s : Store) (key : String) : List String :=
  ToStringSlice (Get s key)

/-! ## String functions of the Go library -/

/-- The worker of `ReplaceAll` for a non-empty pattern: `skip` counts the
characters of a matched occurrence that are still to be dropped. -/
def replaceAux (old new : List Char) : Nat → List Char → List Char
  | _, [] => []
  | skip + 1, _ :: cs => replaceAux old new skip cs
  | 0, c :: cs =>
    if old.isPrefixOf (c :: cs) then new ++ replaceAux old new (old.length - 1) cs
    else c :: replaceAux old new 0 cs

/-- Go `strings.ReplaceAll`: the non-overlapping occurrences of `old`, found
from left to right, are replaced by `new`; an empty `old` matches before
every character and at the end. -/
def ReplaceAll (s old new : String) : String :=
  if old.data = [] then
    String.mk (new.data ++ s.data.flatMap (fun c => c :: new.data))
  else String.mk (replaceAux old.data new.data 0 s.data)

/-- Go `strings.TrimSpace`: leading and trailing white space removed. -/
def TrimSpace (s : String) : String :=
  String.mk ((s.data.dropWhile IsSpace).reverse.dropWhile IsSpace).reverse

/-- The function `UnescapeWhitespace` of `root.go`. -/
def UnescapeWhitespace (s : String) : String :=
  let s := ReplaceAll s "\\n" "\n"
  let s := ReplaceAll s "\\t" "\t"
  let s := ReplaceAll s "\\r" "\r"
  s

/-! ## The gate -/

/-- The `switch` on `strings.ToLower(level)`: the new value of `level`, or
`none` for the `default` case. -/
def switchLevel (E : Env) (level : String) : Option String :=
  let l := E.ToLower level
  if l = "todos" ∨ l = "all" then some E.FilterLevel_All
  else if l = "grado" ∨ l = "grad" then some E.FilterLevel_Grado
  else if l = "ingreso" ∨ l = "ing" ∨ l = "pichis" then some E.FilterLevel_Ingreso
  else if l = "posgrado" ∨ l = "pos" then some E.FilterLevel_Posgrado
  else if l = "ee" then some E.FilterLevel_EducacionEjecutiva
  else if l = "0" ∨ l = "1" ∨ l = "2" ∨ l = "3" ∨ l = "" then some level
  else none

/-- The `switch` on `strings.ToLower(period)`: the new value of `period`, or
`none` for the `default` case. -/
def switchPeriod (E : Env) (period : String) : Option String :=
  let p := E.ToLower period
  if p = "sem2" ∨ p = "cuat2" ∨ p = "segundo cuat." ∨ p = "2" then some E.FilterPeriod_Semester2
  else if p = "sem1" ∨ p = "cuat1" ∨ p = "primer cuat." ∨ p = "1" then some E.FilterPeriod_Semester1
  else if p = "all" ∨ p = "todos" then some E.FilterPeriod_All
  else if p = "summer" ∨ p = "verano" then some E.FilterPeriod_Summer
  else if p = "special" ∨ p = "especial" then some E.FilterPeriod_Special
  else none

/-- What a call of `checkConfig` leaves behind: the store, the text printed
on standard output, and the returned error (`none` for `nil`). -/
structure Result where
  store : Store
  out : List String
  err : Option String
  deriving DecidableEq, Repr

def errNoKeys : String := "no keys found in file"

def errYear (year : Int) : String :=
  "bad year! should be integer, managed to read: " ++ toString year

def errLevel (level : String) : String :=
  "bad filter.level in config. got " ++ level

def errPeriod (period : String) : String :=
  "bad filter.period in config. got " ++ period

def errBufferMax : String :=
  "concurrent.classBufferMax too low or not found. Must be at least 1"

def errNoWork : String :=
  "both scrape.classes and scrape.careerPlans can't be false. no work to do"

def warnDelay : String :=
  "request-delay.minimum_ms too low or not found in config! setting at 1 second."

def warnThreads : String :=
  "[warn] number of threads is one or negative, setting to zero for expected behaviour.\n"

def warnBeautify (pfx indt : String) : String :=
  "[warn] beautify.prefix/indent seem to have non whitespace characters. this may invalidate json. got:"
    ++ pfx ++ "," ++ indt ++ "\n"

/-- The lines of `checkConfig` after the scrape-toggle check: the beautify
strings are unescaped and written back, `minify` is set when both are empty. -/
def checkBeautify (s : Store) (out : List String) : Result :=
  let pfx := UnescapeWhitespace (GetString s "beautify.prefix")
  let indt := UnescapeWhitespace (GetString s "beautify.indent")
  let warn : Bool := decide (TrimSpace pfx ≠ "" ∨ TrimSpace indt ≠ "")
  let out := if warn then out ++ [warnBeautify pfx indt] else out
  let s := if !warn && decide (indt = "" ∧ pfx = "") then Set s "minify" (Value.str "true") else s
  let s := Set s "beautify.prefix" (Value.str pfx)
  let s := Set s "beautify.indent" (Value.str indt)
  ⟨s, out, none⟩

/-- The lines of `checkConfig` from the buffer check to the scrape-toggle
check, followed by `checkBeautify`. -/
def checkScrape (E : Env) (s : Store) (out : List String) : Result :=
  let bufferMax := GetInt E s "concurrent.classBufferMax"
  if bufferMax < 1 then ⟨s, out, some errBufferMax⟩ else
  let p := GetString s "login.password"
  let s := if p = "" then Set s "login.user" (Value.str "") else s
  let plans := GetStringSlice s "plans"
  let emptyPlans : Bool := decide (plans.length = 0)
  -- the appended slice is a local value: it is not written to the store
  let _plans := if emptyPlans then plans ++ ["none"] else plans
  let s := if emptyPlans then Set s "scrape.careerPlans" (Value.str "false") else s
  let scrapeClasses := GetBool s "scrape.classes"
  let scrapePlans := GetBool s "scrape.careerPlans"
  if !scrapeClasses && !scrapePlans then ⟨s, out, some errNoWork⟩ else
  checkBeautify s out

/-- The lines of `checkConfig` that repair the request delays and the thread
count, followed by `checkScrape`. -/
def checkDelays (E : Env) (s : Store) : Result :=
  let delay := GetInt E s "request-delay.minimum_ms"
  let lowDelay : Bool := decide (delay < 800 ∧ delay ≠ 42)
  let s := if lowDelay then Set s "request-delay.minimum_ms" (Value.int 1000) else s
  let out := if lowDelay then [warnDelay] else []
  let rndDelay := GetInt E s "request-delay.rand_ms"
  let s := if rndDelay < 0 then Set s "request-delay.rand_ms" (Value.int 0) else s
  let parallel := GetInt E s "concurrent.threads"
  let fewThreads : Bool := decide (parallel < 2 ∧ parallel ≠ 0)
  let out := if fewThreads then out ++ [warnThreads] else out
  let s := if fewThreads then Set s "concurrent.threads" (Value.int 0) else s
  checkScrape E s out

/-- The function `checkConfig` of `root.go`, on the store `s`. -/
def checkConfig (E : Env) (s : Store) : Result :=
  if (AllKeys s).length = 0 then ⟨s, [], some errNoKeys⟩ else
  let year := GetInt E s "filter.year"
  if year > 2050 ∨ year < 2000 then ⟨s, [], some (errYear year)⟩ else
  let level := GetString s "filter.level"
  match switchLevel E level with
  | none => ⟨s, [], some (errLevel level)⟩
  | some level =>
  let s := Set s "filter.level" (Value.str level)
  let period := GetString s "filter.period"
  match switchPeriod E period with
  | none => ⟨s, [], some (errPeriod period)⟩
  | some period =>
  let s := Set s "filter.period" (Value.str period)
  checkDelays E s

/-! ## A sample environment, for evaluation -/

/-- Lower-casing of the letters `A`–`Z`. -/
def asciiLower (s : String) : String :=
  String.mk (s.data.map Char.toLower)

/-- The value of a string of decimal digits, most significant first. -/
def digitsValue : List Char → Nat → Option Nat
  | [], acc => some acc
  | c :: cs, acc => if c.isDigit then digitsValue cs (10 * acc + (c.toNat - 48)) else none

/-- A signed decimal numeral. -/
def parseDecimal (s : String) : Option Int :=
  match s.data with
  | [] => none
  | '-' :: c :: cs => (digitsValue (c :: cs) 0).map (fun n => - (n : Int))
  | '+' :: c :: cs => (digitsValue (c :: cs) 0).map (fun n => (n : Int))
  | cs => (digitsValue cs 0).map (fun n => (n : Int))

/-- An environment for evaluating the gate on concrete stores: the constants
are given the names of their declarations as values. -/
def sampleEnv : Env where
  FilterLevel_All := "FilterLevel_All"
  FilterLevel_Grado := "FilterLevel_Grado"
  FilterLevel_Ingreso := "FilterLevel_Ingreso"
  FilterLevel_Posgrado := "FilterLevel_Posgrado"
  FilterLevel_EducacionEjecutiva := "FilterLevel_EducacionEjecutiva"
  FilterPeriod_Semester2 := "FilterPeriod_Semester2"
  FilterPeriod_Semester1 := "FilterPeriod_Semester1"
  FilterPeriod_All := "FilterPeriod_All"
  FilterPeriod_Summer := "FilterPeriod_Summer"
  FilterPeriod_Special := "FilterPeriod_Special"
  ToLower := asciiLower
  ParseInt := parseDecimal

/-- A store that the gate accepts. -/
def goodStore : Store :=
  [("filter.year", Value.int 2020),
   ("filter.level", Value.str "GRADO"),
   ("filter.period", Value.str "Sem2"),
   ("request-delay.minimum_ms", Value.int 900),
   ("request-delay.rand_ms", Value.int 5),
   ("concurrent.threads", Value.int 4),
   ("concurrent.classBufferMax", Value.int 1),
   ("login.user", Value.str "alice"),
   ("login.password", Value.str "secret"),
   ("plans", Value.strs ["S10"]),
   ("scrape.classes", Value.bool true),
   ("scrape.careerPlans", Value.bool true),
   ("minify", Value.bool false),
   ("beautify.prefix", Value.str ""),
   ("beautify.indent", Value.str "\\t")]


/-- The accepted store with an empty plan list. -/
def noPlansStore : Store :=
  Set goodStore "plans" (Value.strs [])

/-- The accepted store with the escaped tab and newline as beautify strings. -/
def tabStore : Store :=
  Set (Set goodStore "beautify.prefix" (Value.str "\\t")) "beautify.indent" (Value.str "\\n")

/-- The accepted store with visible characters in the beautify strings. -/
def dashStore : Store :=
  Set (Set goodStore "beautify.prefix" (Value.str "--\\t")) "beautify.indent" (Value.str "x\\n")

/-! ## The checks of the gate, as predicates on the store before the call -/

/-- The ten synonyms of the level table. -/
def levelSynonyms : List String :=
  ["todos", "all", "grado", "grad", "ingreso", "ing", "pichis", "posgrado", "pos", "ee"]

/-- The level values that are accepted without being rewritten. -/
def levelPassthrough : List String :=
  ["0", "1", "2", "3", ""]

/-- The synonyms of the period table. -/
def periodSynonyms : List String :=
  ["sem2", "cuat2", "segundo cuat.", "2", "sem1", "cuat1", "primer cuat.", "1",
   "all", "todos", "summer", "verano", "special", "especial"]

/-- The store has at least one key. -/
abbrev keysOK (s : Store) : Prop :=
  (AllKeys s).length ≠ 0

/-- The year read from the store lies in the accepted range. -/
abbrev yearOK (E : Env) (s : Store) : Prop :=
  2000 ≤ GetInt E s "filter.year" ∧ GetInt E s "filter.year" ≤ 2050

/-- The lower-cased level is a synonym or a passthrough value. -/
abbrev levelOK (E : Env) (s : Store) : Prop :=
  E.ToLower (GetString s "filter.level") ∈ levelSynonyms ++ levelPassthrough

/-- The lower-cased period is a synonym. -/
abbrev periodOK (E : Env) (s : Store) : Prop :=
  E.ToLower (GetString s "filter.period") ∈ periodSynonyms

/-- The class buffer holds at least one element. -/
abbrev bufferOK (E : Env) (s : Store) : Prop :=
  1 ≤ GetInt E s "concurrent.classBufferMax"

/-- There is work to do: classes are scraped, or career plans are scraped
and the plan list is not empty. -/
abbrev scrapeOK (s : Store) : Prop :=
  GetBool s "scrape.classes" = true ∨
    (GetBool s "scrape.careerPlans" = true ∧ GetStringSlice s "plans" ≠ [])

/-- The accepted store without the key `filter.year`. -/
def noYearStore : Store :=
  goodStore.filter (fun kv => kv.1 ≠ "filter.year")

/-- The accepted store with a buffer size of 0 and a minimum delay of 5 ms. -/
def lowBufferStore : Store :=
  Set (Set goodStore "concurrent.classBufferMax" (Value.int 0))
    "request-delay.minimum_ms" (Value.int 5)

/-- The keys that `checkConfig` writes. -/
def writtenKeys : List String :=
  ["filter.level", "filter.period", "request-delay.minimum_ms", "request-delay.rand_ms",
   "concurrent.threads", "login.user", "scrape.careerPlans", "minify", "beautify.prefix",
   "beautify.indent"]

/-- Whether the character `a` is directly followed by `b` somewhere in the
list. -/
def hasPair (a b : Char) : List Char → Bool
  | [] => false
  | x :: xs => (x == a && xs.head? == some b) || hasPair a b xs

/-- The value that a successful call of `checkConfig` on the store `s` leaves
under the key `k`. -/
def settled (E : Env) (s : Store) (k : String) : Option Value :=
  if k = "beautify.indent" then
    some (Value.str (UnescapeWhitespace (GetString s "beautify.indent")))
  else if k = "beautify.prefix" then
    some (Value.str (UnescapeWhitespace (GetString s "beautify.prefix")))
  else if k = "minify" then
    (if UnescapeWhitespace (GetString s "beautify.prefix") = "" ∧
        UnescapeWhitespace (GetString s "beautify.indent") = ""
     then some (Value.str "true") else Get s "minify")
  else if k = "scrape.careerPlans" then
    (if GetStringSlice s "plans" = [] then some (Value.str "false")
     else Get s "scrape.careerPlans")
  else if k = "login.user" then
    (if GetString s "login.password" = "" then some (Value.str "") else Get s "login.user")
  else if k = "concurrent.threads" then
    (if GetInt E s "concurrent.threads" < 2 ∧ GetInt E s "concurrent.threads" ≠ 0
     then some (Value.int 0) else Get s "concurrent.threads")
  else if k = "request-delay.rand_ms" then
    (if GetInt E s "request-delay.rand_ms" < 0 then some (Value.int 0)
     else Get s "request-delay.rand_ms")
  else if k = "request-delay.minimum_ms" then
    (if GetInt E s "request-delay.minimum_ms" < 800 ∧
        GetInt E s "request-delay.minimum_ms" ≠ 42
     then some (Value.int 1000) else Get s "request-delay.minimum_ms")
  else if k = "filter.period" then
    (switchPeriod E (GetString s "filter.period")).map Value.str
  else if k = "filter.level" then
    (switchLevel E (GetString s "filter.level")).map Value.str
  else Get s k

/-- A condition on the constants `FilterLevel_*` and `FilterPeriod_*`, which
are declared outside `root.go`: each constant, read again as an input, is
accepted by its switch and mapped to itself. Nothing in `root.go` says whether
the constants of the package meet it. -/
abbrev constsStable (E : Env) : Prop :=
  switchLevel E E.FilterLevel_All = some E.FilterLevel_All ∧
  switchLevel E E.FilterLevel_Grado = some E.FilterLevel_Grado ∧
  switchLevel E E.FilterLevel_Ingreso = some E.FilterLevel_Ingreso ∧
  switchLevel E E.FilterLevel_Posgrado = some E.FilterLevel_Posgrado ∧
  switchLevel E E.FilterLevel_EducacionEjecutiva = some E.FilterLevel_EducacionEjecutiva ∧
  switchPeriod E E.FilterPeriod_Semester2 = some E.FilterPeriod_Semester2 ∧
  switchPeriod E E.FilterPeriod_Semester1 = some E.FilterPeriod_Semester1 ∧
  switchPeriod E E.FilterPeriod_All = some E.FilterPeriod_All ∧
  switchPeriod E E.FilterPeriod_Summer = some E.FilterPeriod_Summer ∧
  switchPeriod E E.FilterPeriod_Special = some E.FilterPeriod_Special

/-- An environment whose constants are synonyms of their own groups. -/
def stableEnv : Env where
  FilterLevel_All := "todos"
  FilterLevel_Grado := "grado"
  FilterLevel_Ingreso := "ingreso"
  FilterLevel_Posgrado := "posgrado"
  FilterLevel_EducacionEjecutiva := "ee"
  FilterPeriod_Semester2 := "sem2"
  FilterPeriod_Semester1 := "sem1"
  FilterPeriod_All := "todos"
  FilterPeriod_Summer := "verano"
  FilterPeriod_Special := "especial"
  ToLower := asciiLower
  ParseInt := parseDecimal

/-! ## Reads and writes of the store -/

theorem Get_Set (s : Store) (k k' : String) (v : Value) :
    Get (Set s k' v) k = if k = k' then some v else Get s k := by
  by_cases h : k = k'
  · subst h; simp [Get, Set, List.lookup]
  · have : (k == k') = false := by simpa using h
    simp [Get, Set, List.lookup, h, this]

theorem Get_ite (c : Prop) [Decidable c] (s t : Store) (k : String) :
    Get (if c then s else t) k = if c then Get s k else Get t k := by
  split <;> rfl

theorem store_ite (c : Prop) [Decidable c] (a b : Result) :
    (if c then a else b).store = if c then a.store else b.store := by
  split <;> rfl

theorem err_ite (c : Prop) [Decidable c] (a b : Result) :
    (if c then a else b).err = if c then a.err else b.err := by
  split <;> rfl

theorem AllKeys_length_eq_zero (s : Store) : (AllKeys s).length = 0 ↔ s = [] := by
  cases s with
  | nil => simp [AllKeys, dedupKeys]
  | cons a t =>
    simp only [AllKeys, List.map_cons, dedupKeys]
    split
    · rename_i h
      simp only [List.length_eq_zero, reduceCtorEq, iff_false]
      intro h0
      rw [h0] at h
      simp at h
    · simp

/-! ## The keys that each part of the gate leaves alone -/

theorem checkBeautify_Get (s : Store) (out : List String) (k : String)
    (h1 : k ≠ "minify") (h2 : k ≠ "beautify.prefix") (h3 : k ≠ "beautify.indent") :
    Get (checkBeautify s out).store k = Get s k := by
  simp only [checkBeautify, Get_Set, Get_ite, h1, h2, h3, if_false, ite_self]

theorem checkScrape_Get (E : Env) (s : Store) (out : List String) (k : String)
    (h1 : k ≠ "minify") (h2 : k ≠ "beautify.prefix") (h3 : k ≠ "beautify.indent")
    (h4 : k ≠ "login.user") (h5 : k ≠ "scrape.careerPlans") :
    Get (checkScrape E s out).store k = Get s k := by
  simp only [checkScrape, store_ite, Get_ite, checkBeautify_Get _ _ _ h1 h2 h3, Get_Set, h4, h5,
    if_false, ite_self]

theorem checkDelays_Get (E : Env) (s : Store) (k : String)
    (h1 : k ≠ "minify") (h2 : k ≠ "beautify.prefix") (h3 : k ≠ "beautify.indent")
    (h4 : k ≠ "login.user") (h5 : k ≠ "scrape.careerPlans")
    (h6 : k ≠ "request-delay.minimum_ms") (h7 : k ≠ "request-delay.rand_ms")
    (h8 : k ≠ "concurrent.threads") :
    Get (checkDelays E s).store k = Get s k := by
  simp only [checkDelays, checkScrape_Get _ _ _ _ h1 h2 h3 h4 h5, Get_ite, Get_Set, h6, h7, h8,
    if_false, ite_self]

theorem checkConfig_Get (E : Env) (s : Store) (k : String)
    (h1 : k ≠ "minify") (h2 : k ≠ "beautify.prefix") (h3 : k ≠ "beautify.indent")
    (h4 : k ≠ "login.user") (h5 : k ≠ "scrape.careerPlans")
    (h6 : k ≠ "request-delay.minimum_ms") (h7 : k ≠ "request-delay.rand_ms")
    (h8 : k ≠ "concurrent.threads") (h9 : k ≠ "filter.level") (h10 : k ≠ "filter.period") :
    Get (checkConfig E s).store k = Get s k := by
  unfold checkConfig
  split
  · rfl
  · simp only []
    split
    · rfl
    · split
      · rfl
      · split
        · simp only [Get_Set, h9, if_false]
        · rw [checkDelays_Get _ _ _ h1 h2 h3 h4 h5 h6 h7 h8]
          simp only [Get_Set, h9, h10, if_false]

/-! ## The two switches -/

theorem switchLevel_eq_none (E : Env) (level : String) :
    switchLevel E level = none ↔ E.ToLower level ∉ levelSynonyms ++ levelPassthrough := by
  simp only [switchLevel, levelSynonyms, levelPassthrough, List.mem_append, List.mem_cons,
    List.not_mem_nil, or_false]
  split_ifs <;> simp <;> tauto

theorem switchPeriod_eq_none (E : Env) (period : String) :
    switchPeriod E period = none ↔ E.ToLower period ∉ periodSynonyms := by
  simp only [switchPeriod, periodSynonyms, List.mem_cons, List.not_mem_nil, or_false]
  split_ifs <;> simp <;> tauto

/-! ## The error returned by each part of the gate -/

theorem ToBool_str_false : ToBool (some (Value.str "false")) = false := by decide

theorem ToBool_str_true : ToBool (some (Value.str "true")) = true := by decide

theorem checkBeautify_err (s : Store) (out : List String) :
    (checkBeautify s out).err = none := rfl

theorem checkScrape_err (E : Env) (s : Store) (out : List String) :
    (checkScrape E s out).err =
      if GetInt E s "concurrent.classBufferMax" < 1 then some errBufferMax
      else if scrapeOK s then none else some errNoWork := by
  by_cases hb : GetInt E s "concurrent.classBufferMax" < 1
  · simp [checkScrape, hb]
  · by_cases hp : ToStringSlice (Get s "plans") = []
    · by_cases hc : ToBool (Get s "scrape.classes") = true
      · simp [checkScrape, scrapeOK, err_ite, checkBeautify_err, GetBool, GetStringSlice,
          GetString, Get_ite, Get_Set, hb, hp, hc]
      · simp [checkScrape, scrapeOK, err_ite, checkBeautify_err, GetBool, GetStringSlice,
          GetString, Get_ite, Get_Set, hb, hp, hc, ToBool_str_false]
    · by_cases hc : ToBool (Get s "scrape.classes") = true
      · simp [checkScrape, scrapeOK, err_ite, checkBeautify_err, GetBool, GetStringSlice,
          GetString, Get_ite, Get_Set, hb, hp, hc]
      · by_cases hq : ToBool (Get s "scrape.careerPlans") = true
        · simp [checkScrape, scrapeOK, err_ite, checkBeautify_err, GetBool, GetStringSlice,
            GetString, Get_ite, Get_Set, hb, hp, hc, hq]
        · simp [checkScrape, scrapeOK, err_ite, checkBeautify_err, GetBool, GetStringSlice,
            GetString, Get_ite, Get_Set, hb, hp, hc, hq]

theorem checkDelays_err (E : Env) (s : Store) :
    (checkDelays E s).err =
      if GetInt E s "concurrent.classBufferMax" < 1 then some errBufferMax
      else if scrapeOK s then none else some errNoWork := by
  simp only [checkDelays, checkScrape_err, scrapeOK, GetBool, GetStringSlice, GetInt, Get_ite,
    Get_Set]
  simp

theorem checkConfig_err (E : Env) (s : Store) :
    (checkConfig E s).err =
      if (AllKeys s).length = 0 then some errNoKeys
      else if GetInt E s "filter.year" > 2050 ∨ GetInt E s "filter.year" < 2000 then
        some (errYear (GetInt E s "filter.year"))
      else if ¬ levelOK E s then some (errLevel (GetString s "filter.level"))
      else if ¬ periodOK E s then some (errPeriod (GetString s "filter.period"))
      else if GetInt E s "concurrent.classBufferMax" < 1 then some errBufferMax
      else if scrapeOK s then none else some errNoWork := by
  unfold checkConfig
  by_cases hk : (AllKeys s).length = 0
  · simp [hk]
  by_cases hy : GetInt E s "filter.year" > 2050 ∨ GetInt E s "filter.year" < 2000
  · simp [hk, hy]
  simp only [hk, hy, if_false]
  cases hl : switchLevel E (GetString s "filter.level") with
  | none =>
    have := (switchLevel_eq_none E _).1 hl
    simp [levelOK, this]
  | some l =>
    have hl2 : levelOK E s := by
      by_contra hc
      rw [(switchLevel_eq_none E _).2 hc] at hl
      cases hl
    have hperiod : GetString (Set s "filter.level" (Value.str l)) "filter.period"
        = GetString s "filter.period" := by
      simp [GetString, Get_Set]
    simp only [hperiod]
    cases hp : switchPeriod E (GetString s "filter.period") with
    | none =>
      have := (switchPeriod_eq_none E _).1 hp
      simp [levelOK, periodOK, hl2, this]
    | some p =>
      have hp2 : periodOK E s := by
        by_contra hc
        rw [(switchPeriod_eq_none E _).2 hc] at hp
        cases hp
      simp only [checkDelays_err, hl2, hp2, not_true_eq_false, if_false]
      simp [scrapeOK, GetInt, GetBool, GetStringSlice, Get_Set]

theorem checkConfig_err_none_iff (E : Env) (s : Store) :
    (checkConfig E s).err = none ↔
      keysOK s ∧ yearOK E s ∧ levelOK E s ∧ periodOK E s ∧ bufferOK E s ∧ scrapeOK s := by
  rw [checkConfig_err]
  simp only [keysOK, yearOK, bufferOK]
  split_ifs with h1 h2 h3 h4 h5 h6 <;> simp_all
  omega

/-- A store that passes the first four checks goes through both switches,
and the rest of the function runs on the store with the two rewritten values. -/
theorem checkConfig_reach_delays (E : Env) (s : Store)
    (hk : keysOK s) (hy : yearOK E s) (hl : levelOK E s) (hp : periodOK E s) :
    ∃ l p, switchLevel E (GetString s "filter.level") = some l ∧
      switchPeriod E (GetString s "filter.period") = some p ∧
      checkConfig E s =
        checkDelays E (Set (Set s "filter.level" (Value.str l)) "filter.period" (Value.str p)) := by
  cases hl' : switchLevel E (GetString s "filter.level") with
  | none => exact absurd hl ((switchLevel_eq_none E _).1 hl')
  | some l =>
    cases hp' : switchPeriod E (GetString s "filter.period") with
    | none => exact absurd hp ((switchPeriod_eq_none E _).1 hp')
    | some p =>
      refine ⟨l, p, rfl, rfl, ?_⟩
      have hperiod : GetString (Set s "filter.level" (Value.str l)) "filter.period"
          = GetString s "filter.period" := by
        simp [GetString, Get_Set]
      have hy' : ¬ (GetInt E s "filter.year" > 2050 ∨ GetInt E s "filter.year" < 2000) := by
        simp only [yearOK] at hy
        omega
      unfold checkConfig
      simp only [hk, hy', if_false, hl', hperiod, hp']

/-- On success the gate has gone through both switches and the rest of the
function has run on the store with the two rewritten values. -/
theorem checkConfig_ok_inv (E : Env) (s : Store) (h : (checkConfig E s).err = none) :
    ∃ l p, switchLevel E (GetString s "filter.level") = some l ∧
      switchPeriod E (GetString s "filter.period") = some p ∧
      checkConfig E s =
        checkDelays E (Set (Set s "filter.level" (Value.str l)) "filter.period" (Value.str p)) := by
  obtain ⟨hk, hy, hl, hp, -, -⟩ := (checkConfig_err_none_iff E s).1 h
  exact checkConfig_reach_delays E s hk hy hl hp

theorem checkConfig_level_stored (E : Env) (s : Store) (h : (checkConfig E s).err = none) :
    switchLevel E (GetString s "filter.level")
      = some (GetString (checkConfig E s).store "filter.level") := by
  obtain ⟨l, p, hl, -, heq⟩ := checkConfig_ok_inv E s h
  rw [hl, heq, GetString,
    checkDelays_Get _ _ _ (by decide) (by decide) (by decide) (by decide) (by decide)
      (by decide) (by decide) (by decide)]
  simp [Get_Set, ToString]

theorem checkConfig_period_stored (E : Env) (s : Store) (h : (checkConfig E s).err = none) :
    switchPeriod E (GetString s "filter.period")
      = some (GetString (checkConfig E s).store "filter.period") := by
  obtain ⟨l, p, -, hp, heq⟩ := checkConfig_ok_inv E s h
  rw [hp, heq, GetString,
    checkDelays_Get _ _ _ (by decide) (by decide) (by decide) (by decide) (by decide)
      (by decide) (by decide) (by decide)]
  simp [Get_Set, ToString]

/-! ## The repaired values -/

theorem checkDelays_minimum_ms (E : Env) (s : Store) :
    GetInt E (checkDelays E s).store "request-delay.minimum_ms" =
      if GetInt E s "request-delay.minimum_ms" < 800 ∧ GetInt E s "request-delay.minimum_ms" ≠ 42
      then 1000 else GetInt E s "request-delay.minimum_ms" := by
  have h : ∀ (t : Store) (out : List String),
      Get (checkScrape E t out).store "request-delay.minimum_ms"
        = Get t "request-delay.minimum_ms" := fun t out =>
    checkScrape_Get E t out _ (by decide) (by decide) (by decide) (by decide) (by decide)
  simp only [GetInt, checkDelays, h, Get_ite, Get_Set]
  simp only [apply_ite (ToInt E)]
  simp [ToInt]

theorem checkDelays_threads (E : Env) (s : Store) :
    GetInt E (checkDelays E s).store "concurrent.threads" =
      if GetInt E s "concurrent.threads" < 2 ∧ GetInt E s "concurrent.threads" ≠ 0
      then 0 else GetInt E s "concurrent.threads" := by
  have h : ∀ (t : Store) (out : List String),
      Get (checkScrape E t out).store "concurrent.threads"
        = Get t "concurrent.threads" := fun t out =>
    checkScrape_Get E t out _ (by decide) (by decide) (by decide) (by decide) (by decide)
  simp only [GetInt, checkDelays, h, Get_ite, Get_Set]
  simp only [apply_ite (ToInt E)]
  simp [ToInt]

/-! ## The beautify step -/

theorem checkScrape_ok_beautify (E : Env) (s : Store) (out : List String)
    (h : (checkScrape E s out).err = none) :
    ∃ t, checkScrape E s out = checkBeautify t out ∧
      ∀ k, k ≠ "login.user" → k ≠ "scrape.careerPlans" → Get t k = Get s k := by
  unfold checkScrape at h ⊢
  simp only [] at h ⊢
  split_ifs at h ⊢ <;>
    (refine ⟨_, rfl, ?_⟩
     intro k k1 k2
     simp only [Get_Set, k1, k2, if_false])

theorem checkDelays_ok_beautify (E : Env) (s : Store) (h : (checkDelays E s).err = none) :
    ∃ t out, checkDelays E s = checkBeautify t out ∧
      ∀ k, k ≠ "request-delay.minimum_ms" → k ≠ "request-delay.rand_ms" →
        k ≠ "concurrent.threads" → k ≠ "login.user" → k ≠ "scrape.careerPlans" →
        Get t k = Get s k := by
  unfold checkDelays at h ⊢
  simp only [] at h ⊢
  obtain ⟨t, ht, hk⟩ := checkScrape_ok_beautify E _ _ h
  refine ⟨t, _, ht, ?_⟩
  intro k k1 k2 k3 k4 k5
  rw [hk k k4 k5]
  simp only [Get_ite, Get_Set, k1, k2, k3, if_false, ite_self]

/-- On success the gate ends with `checkBeautify`, on a store that still
reads as the one before the call at every key not written earlier. -/
theorem checkConfig_ok_beautify (E : Env) (s : Store) (h : (checkConfig E s).err = none) :
    ∃ t out, checkConfig E s = checkBeautify t out ∧
      ∀ k, k ≠ "filter.level" → k ≠ "filter.period" → k ≠ "request-delay.minimum_ms" →
        k ≠ "request-delay.rand_ms" → k ≠ "concurrent.threads" → k ≠ "login.user" →
        k ≠ "scrape.careerPlans" → Get t k = Get s k := by
  obtain ⟨l, p, -, -, heq⟩ := checkConfig_ok_inv E s h
  rw [heq] at h ⊢
  obtain ⟨t, out, ht, hk⟩ := checkDelays_ok_beautify E _ h
  refine ⟨t, out, ht, ?_⟩
  intro k k1 k2 k3 k4 k5 k6 k7
  rw [hk k k3 k4 k5 k6 k7]
  simp only [Get_Set, k1, k2, if_false]

theorem TrimSpace_empty : TrimSpace "" = "" := by decide

theorem checkBeautify_pfx (t : Store) (out : List String) :
    GetString (checkBeautify t out).store "beautify.prefix"
      = UnescapeWhitespace (GetString t "beautify.prefix") := by
  simp [checkBeautify, GetString, Get_Set, ToString]

theorem checkBeautify_indt (t : Store) (out : List String) :
    GetString (checkBeautify t out).store "beautify.indent"
      = UnescapeWhitespace (GetString t "beautify.indent") := by
  simp [checkBeautify, GetString, Get_Set, ToString]

theorem checkBeautify_minify (t : Store) (out : List String) :
    Get (checkBeautify t out).store "minify" =
      if UnescapeWhitespace (GetString t "beautify.prefix") = "" ∧
          UnescapeWhitespace (GetString t "beautify.indent") = ""
      then some (Value.str "true") else Get t "minify" := by
  by_cases hc : UnescapeWhitespace (GetString t "beautify.prefix") = "" ∧
      UnescapeWhitespace (GetString t "beautify.indent") = ""
  · simp [checkBeautify, Get_ite, Get_Set, hc.1, hc.2, TrimSpace_empty]
  · rw [if_neg hc]
    simp only [checkBeautify, Get_ite, Get_Set]
    have hc' : ¬ (UnescapeWhitespace (GetString t "beautify.indent") = "" ∧
        UnescapeWhitespace (GetString t "beautify.prefix") = "") := fun h => hc ⟨h.2, h.1⟩
    simp [hc']

theorem checkBeautify_out (t : Store) (out : List String)
    (h : TrimSpace (UnescapeWhitespace (GetString t "beautify.prefix")) ≠ "" ∨
      TrimSpace (UnescapeWhitespace (GetString t "beautify.indent")) ≠ "") :
    warnBeautify (UnescapeWhitespace (GetString t "beautify.prefix"))
      (UnescapeWhitespace (GetString t "beautify.indent")) ∈ (checkBeautify t out).out := by
  simp only [checkBeautify]
  rw [if_pos (by simpa using h)]
  simp

/-! ## The scrape toggles as the gate leaves them -/

theorem checkScrape_careerPlans (E : Env) (s : Store) (out : List String)
    (hb : ¬ GetInt E s "concurrent.classBufferMax" < 1) :
    GetBool (checkScrape E s out).store "scrape.careerPlans" =
      if GetStringSlice s "plans" = [] then false else GetBool s "scrape.careerPlans" := by
  have h : ∀ (t : Store) (o : List String),
      Get (checkBeautify t o).store "scrape.careerPlans" = Get t "scrape.careerPlans" :=
    fun t o => checkBeautify_Get t o _ (by decide) (by decide) (by decide)
  by_cases hp : ToStringSlice (Get s "plans") = []
  · simp [checkScrape, hb, GetBool, GetStringSlice, GetString, store_ite, Get_ite, h, Get_Set,
      hp, ToBool_str_false]
  · simp [checkScrape, hb, GetBool, GetStringSlice, GetString, store_ite, Get_ite, h, Get_Set,
      hp]

theorem checkConfig_careerPlans (E : Env) (s : Store)
    (hk : keysOK s) (hy : yearOK E s) (hl : levelOK E s) (hp : periodOK E s)
    (hb : bufferOK E s) :
    GetBool (checkConfig E s).store "scrape.careerPlans" =
      if GetStringSlice s "plans" = [] then false else GetBool s "scrape.careerPlans" := by
  obtain ⟨l, p, -, -, heq⟩ := checkConfig_reach_delays E s hk hy hl hp
  rw [heq]
  unfold checkDelays
  simp only []
  rw [checkScrape_careerPlans]
  · simp [GetStringSlice, GetBool, Get_ite, Get_Set]
  · simp only [bufferOK] at hb
    simp only [GetInt, Get_ite, Get_Set]
    simp only [GetInt] at hb
    simp
    omega

/-! ## The claims -/

/-- C1: on a store that passes every other check, with `v` the integer read
as `filter.year`, `checkConfig` succeeds exactly when `2000 ≤ v ≤ 2050`, and
when it fails the error text ends with the decimal form of `v`. -/
theorem checkConfig_year (E : Env) (s : Store) (v : Int)
    (hkeys : keysOK s) (hlevel : levelOK E s) (hperiod : periodOK E s)
    (hbuf : bufferOK E s) (hscrape : scrapeOK s) (hv : GetInt E s "filter.year" = v) :
    ((checkConfig E s).err = none ↔ 2000 ≤ v ∧ v ≤ 2050) ∧
    ((checkConfig E s).err ≠ none →
      (checkConfig E s).err
        = some ("bad year! should be integer, managed to read: " ++ toString v)) := by
  subst hv
  constructor
  · rw [checkConfig_err_none_iff]
    exact ⟨fun h => h.2.1, fun h => ⟨hkeys, h, hlevel, hperiod, hbuf, hscrape⟩⟩
  · intro hne
    have hy : ¬ yearOK E s := fun hy =>
      hne ((checkConfig_err_none_iff E s).2 ⟨hkeys, hy, hlevel, hperiod, hbuf, hscrape⟩)
    have hy' : GetInt E s "filter.year" > 2050 ∨ GetInt E s "filter.year" < 2000 := by
      simp only [yearOK] at hy
      omega
    rw [checkConfig_err, if_neg hkeys, if_pos hy']
    rfl

/-- Witness of C1: the year 1999 in an otherwise valid store is rejected with
its own value in the text, and the same store with the year 2020 passes. -/
theorem checkConfig_year_witness :
    ((checkConfig sampleEnv (Set goodStore "filter.year" (Value.int 1999))).err = none
        ↔ 2000 ≤ (1999 : Int) ∧ (1999 : Int) ≤ 2050) ∧
    ((checkConfig sampleEnv (Set goodStore "filter.year" (Value.int 1999))).err ≠ none →
      (checkConfig sampleEnv (Set goodStore "filter.year" (Value.int 1999))).err
        = some ("bad year! should be integer, managed to read: " ++ toString (1999 : Int))) :=
  checkConfig_year sampleEnv (Set goodStore "filter.year" (Value.int 1999)) 1999
    (by decide) (by decide) (by decide) (by decide) (by decide) (by decide)

/-- C2: on a store that passes every other check and whose lower-cased
`filter.level` is one of the ten synonyms, `checkConfig` succeeds and
`filter.level` then holds the constant of the synonym's group; a second such
store whose level has the same lower-cased form ends with the same value. -/
theorem checkConfig_level_canonical (E : Env) (s s' : Store)
    (hkeys : keysOK s) (hyear : yearOK E s) (hperiod : periodOK E s)
    (hbuf : bufferOK E s) (hscrape : scrapeOK s)
    (hkeys' : keysOK s') (hyear' : yearOK E s') (hperiod' : periodOK E s')
    (hbuf' : bufferOK E s') (hscrape' : scrapeOK s')
    (hsyn : E.ToLower (GetString s "filter.level") ∈ levelSynonyms)
    (hcase : E.ToLower (GetString s' "filter.level") = E.ToLower (GetString s "filter.level")) :
    (checkConfig E s).err = none ∧
    (E.ToLower (GetString s "filter.level") ∈ ["todos", "all"] →
      GetString (checkConfig E s).store "filter.level" = E.FilterLevel_All) ∧
    (E.ToLower (GetString s "filter.level") ∈ ["grado", "grad"] →
      GetString (checkConfig E s).store "filter.level" = E.FilterLevel_Grado) ∧
    (E.ToLower (GetString s "filter.level") ∈ ["ingreso", "ing", "pichis"] →
      GetString (checkConfig E s).store "filter.level" = E.FilterLevel_Ingreso) ∧
    (E.ToLower (GetString s "filter.level") ∈ ["posgrado", "pos"] →
      GetString (checkConfig E s).store "filter.level" = E.FilterLevel_Posgrado) ∧
    (E.ToLower (GetString s "filter.level") ∈ ["ee"] →
      GetString (checkConfig E s).store "filter.level" = E.FilterLevel_EducacionEjecutiva) ∧
    (checkConfig E s').err = none ∧
    GetString (checkConfig E s').store "filter.level"
      = GetString (checkConfig E s).store "filter.level" := by
  have hl : levelOK E s := List.mem_append_left _ hsyn
  have hl' : levelOK E s' := by
    simp only [levelOK, hcase]
    exact hl
  have hok := (checkConfig_err_none_iff E s).2 ⟨hkeys, hyear, hl, hperiod, hbuf, hscrape⟩
  have hok' := (checkConfig_err_none_iff E s').2 ⟨hkeys', hyear', hl', hperiod', hbuf', hscrape'⟩
  have hst := checkConfig_level_stored E s hok
  have hst' := checkConfig_level_stored E s' hok'
  simp only [switchLevel, hcase] at hst hst'
  simp only [levelSynonyms, List.mem_cons, List.not_mem_nil, or_false] at hsyn ⊢
  refine ⟨hok, ?_, ?_, ?_, ?_, ?_, hok', ?_⟩
  · intro h
    rw [if_pos h] at hst
    exact (Option.some.inj hst).symm
  · intro h
    rcases h with h | h <;> simp [h] at hst <;> exact hst.symm
  · intro h
    rcases h with h | h | h <;> simp [h] at hst <;> exact hst.symm
  · intro h
    rcases h with h | h <;> simp [h] at hst <;> exact hst.symm
  · intro h
    simp [h] at hst
    exact hst.symm
  · rcases hsyn with h | h | h | h | h | h | h | h | h | h <;> simp [h] at hst hst' <;>
      rw [← hst, ← hst']

/-- Witness of C2: `GRADO` and `Grado` in the same valid store both end as
the constant of the grado group. -/
theorem checkConfig_level_canonical_witness :
    GetString (checkConfig sampleEnv goodStore).store "filter.level"
      = sampleEnv.FilterLevel_Grado ∧
    GetString (checkConfig sampleEnv
        (Set goodStore "filter.level" (Value.str "Grado"))).store "filter.level"
      = GetString (checkConfig sampleEnv goodStore).store "filter.level" :=
  have h := checkConfig_level_canonical sampleEnv goodStore
    (Set goodStore "filter.level" (Value.str "Grado"))
    (by decide) (by decide) (by decide) (by decide) (by decide)
    (by decide) (by decide) (by decide) (by decide) (by decide) (by decide) (by decide)
  ⟨h.2.2.1 (by decide), h.2.2.2.2.2.2.2⟩

/-- C3: on a store that passes every other check, a `filter.period` whose
lower-cased form is in one of the five synonym groups is accepted and
replaced by the constant of its group; every other value, on any store, makes
`checkConfig` fail, here with the period error that quotes the value. So a
period is accepted only if it is in the table. -/
theorem checkConfig_period_canonical (E : Env) (s : Store)
    (hkeys : keysOK s) (hyear : yearOK E s) (hlevel : levelOK E s)
    (hbuf : bufferOK E s) (hscrape : scrapeOK s) :
    (E.ToLower (GetString s "filter.period") ∈ ["sem2", "cuat2", "segundo cuat.", "2"] →
      (checkConfig E s).err = none ∧
      GetString (checkConfig E s).store "filter.period" = E.FilterPeriod_Semester2) ∧
    (E.ToLower (GetString s "filter.period") ∈ ["sem1", "cuat1", "primer cuat.", "1"] →
      (checkConfig E s).err = none ∧
      GetString (checkConfig E s).store "filter.period" = E.FilterPeriod_Semester1) ∧
    (E.ToLower (GetString s "filter.period") ∈ ["all", "todos"] →
      (checkConfig E s).err = none ∧
      GetString (checkConfig E s).store "filter.period" = E.FilterPeriod_All) ∧
    (E.ToLower (GetString s "filter.period") ∈ ["summer", "verano"] →
      (checkConfig E s).err = none ∧
      GetString (checkConfig E s).store "filter.period" = E.FilterPeriod_Summer) ∧
    (E.ToLower (GetString s "filter.period") ∈ ["special", "especial"] →
      (checkConfig E s).err = none ∧
      GetString (checkConfig E s).store "filter.period" = E.FilterPeriod_Special) ∧
    (E.ToLower (GetString s "filter.period") ∉ periodSynonyms →
      (checkConfig E s).err
        = some ("bad filter.period in config. got " ++ GetString s "filter.period")) ∧
    (∀ t : Store, E.ToLower (GetString t "filter.period") ∉ periodSynonyms →
      (checkConfig E t).err ≠ none) ∧
    ((checkConfig E s).err = none → E.ToLower (GetString s "filter.period") ∈ periodSynonyms) := by
  have key : ∀ c : String, E.ToLower (GetString s "filter.period") ∈ periodSynonyms →
      switchPeriod E (GetString s "filter.period") = some c →
      (checkConfig E s).err = none ∧ GetString (checkConfig E s).store "filter.period" = c := by
    intro c hmem hsw
    have hok := (checkConfig_err_none_iff E s).2 ⟨hkeys, hyear, hlevel, hmem, hbuf, hscrape⟩
    have hst := checkConfig_period_stored E s hok
    rw [hsw] at hst
    exact ⟨hok, (Option.some.inj hst).symm⟩
  have hy' : ¬ (GetInt E s "filter.year" > 2050 ∨ GetInt E s "filter.year" < 2000) := by
    simp only [yearOK] at hyear
    omega
  refine ⟨?_, ?_, ?_, ?_, ?_, ?_, ?_, ?_⟩
  · intro h
    simp only [List.mem_cons, List.not_mem_nil, or_false] at h
    rcases h with h | h | h | h <;>
      exact key _ (by rw [h]; decide) (by simp [switchPeriod, h])
  · intro h
    simp only [List.mem_cons, List.not_mem_nil, or_false] at h
    rcases h with h | h | h | h <;>
      exact key _ (by rw [h]; decide) (by simp [switchPeriod, h])
  · intro h
    simp only [List.mem_cons, List.not_mem_nil, or_false] at h
    rcases h with h | h <;>
      exact key _ (by rw [h]; decide) (by simp [switchPeriod, h])
  · intro h
    simp only [List.mem_cons, List.not_mem_nil, or_false] at h
    rcases h with h | h <;>
      exact key _ (by rw [h]; decide) (by simp [switchPeriod, h])
  · intro h
    simp only [List.mem_cons, List.not_mem_nil, or_false] at h
    rcases h with h | h <;>
      exact key _ (by rw [h]; decide) (by simp [switchPeriod, h])
  · intro h
    rw [checkConfig_err, if_neg hkeys, if_neg hy', if_neg (not_not.2 hlevel), if_pos h]
    rfl
  · intro t h hok
    exact h ((checkConfig_err_none_iff E t).1 hok).2.2.2.1
  · intro hok
    exact ((checkConfig_err_none_iff E s).1 hok).2.2.2.1

/-- Witness of C3: `Sem2` is replaced by the Semester2 constant, and `bogus`
in the same store is rejected. -/
theorem checkConfig_period_canonical_witness :
    GetString (checkConfig sampleEnv goodStore).store "filter.period"
      = sampleEnv.FilterPeriod_Semester2 ∧
    (checkConfig sampleEnv (Set goodStore "filter.period" (Value.str "bogus"))).err
      = some ("bad filter.period in config. got " ++ "bogus") :=
  ⟨((checkConfig_period_canonical sampleEnv goodStore
      (by decide) (by decide) (by decide) (by decide) (by decide)).1 (by decide)).2,
   (checkConfig_period_canonical sampleEnv (Set goodStore "filter.period" (Value.str "bogus"))
      (by decide) (by decide) (by decide) (by decide) (by decide)).2.2.2.2.2.1 (by decide)⟩

/-- C4: when `checkConfig` succeeds and `v` is the integer read as
`request-delay.minimum_ms` before the call, the value read after the call is
42 if `v = 42`, 1000 if `v < 800` and `v ≠ 42`, and `v` if `v ≥ 800`; so it
is 42 or at least 800. -/
theorem checkConfig_minimum_ms (E : Env) (s : Store) (v : Int)
    (hok : (checkConfig E s).err = none)
    (hv : GetInt E s "request-delay.minimum_ms" = v) :
    (v = 42 → GetInt E (checkConfig E s).store "request-delay.minimum_ms" = 42) ∧
    (v < 800 → v ≠ 42 → GetInt E (checkConfig E s).store "request-delay.minimum_ms" = 1000) ∧
    (800 ≤ v → GetInt E (checkConfig E s).store "request-delay.minimum_ms" = v) ∧
    (GetInt E (checkConfig E s).store "request-delay.minimum_ms" = 42 ∨
      800 ≤ GetInt E (checkConfig E s).store "request-delay.minimum_ms") := by
  obtain ⟨l, p, -, -, heq⟩ := checkConfig_ok_inv E s hok
  have hrd : GetInt E (Set (Set s "filter.level" (Value.str l)) "filter.period" (Value.str p))
      "request-delay.minimum_ms" = v := by
    rw [← hv]
    simp [GetInt, Get_Set]
  rw [heq, checkDelays_minimum_ms, hrd]
  refine ⟨?_, ?_, ?_, ?_⟩
  · intro h; subst h; simp
  · intro h1 h2; rw [if_pos ⟨h1, h2⟩]
  · intro h; rw [if_neg (by omega)]
  · split_ifs <;> omega

/-- Witness of C4: a minimum delay of 5 ms in a valid store is raised to 1000. -/
theorem checkConfig_minimum_ms_witness :
    GetInt sampleEnv
      (checkConfig sampleEnv (Set goodStore "request-delay.minimum_ms" (Value.int 5))).store
      "request-delay.minimum_ms" = 1000 :=
  (checkConfig_minimum_ms sampleEnv (Set goodStore "request-delay.minimum_ms" (Value.int 5)) 5
    (by decide) (by decide)).2.1 (by decide) (by decide)

/-- C5, at a store with an empty plan list: `checkConfig` succeeds and
`scrape.careerPlans` reads as false afterwards, but the plan list held in the
store is still empty, not the sentinel entry; no call of `checkConfig` changes
what the store holds under `plans`. -/
theorem checkConfig_plans_not_written :
    GetStringSlice noPlansStore "plans" = [] ∧
    (checkConfig sampleEnv noPlansStore).err = none ∧
    GetBool (checkConfig sampleEnv noPlansStore).store "scrape.careerPlans" = false ∧
    GetStringSlice (checkConfig sampleEnv noPlansStore).store "plans" = [] ∧
    GetStringSlice (checkConfig sampleEnv noPlansStore).store "plans" ≠ ["none"] ∧
    (∀ (E : Env) (s : Store), Get (checkConfig E s).store "plans" = Get s "plans") := by
  refine ⟨by decide, by decide, by decide, by decide, by decide, ?_⟩
  intro E s
  exact checkConfig_Get E s "plans" (by decide) (by decide) (by decide) (by decide) (by decide)
    (by decide) (by decide) (by decide) (by decide) (by decide)

/-- C6 fails as stated: with the escaped tab and newline as beautify strings,
`checkConfig` succeeds, both unescaped strings are white space only, and
`minify` still reads as false after the call. -/
theorem checkConfig_minify_counterexample :
    (checkConfig sampleEnv tabStore).err = none ∧
    UnescapeWhitespace (GetString tabStore "beautify.prefix") = "\t" ∧
    UnescapeWhitespace (GetString tabStore "beautify.indent") = "\n" ∧
    TrimSpace (UnescapeWhitespace (GetString tabStore "beautify.prefix")) = "" ∧
    TrimSpace (UnescapeWhitespace (GetString tabStore "beautify.indent")) = "" ∧
    GetBool (checkConfig sampleEnv tabStore).store "minify" = false := by
  refine ⟨by decide, by decide, by decide, by decide, by decide, by decide⟩

/-- C6, amended: when `checkConfig` succeeds and both unescaped beautify
strings are empty, `minify` reads as true after the call; in every other
case, white space only strings included, `minify` holds what it held before. -/
theorem checkConfig_minify (E : Env) (s : Store) (hok : (checkConfig E s).err = none) :
    (UnescapeWhitespace (GetString s "beautify.prefix") = "" ∧
        UnescapeWhitespace (GetString s "beautify.indent") = "" →
      GetBool (checkConfig E s).store "minify" = true) ∧
    (¬ (UnescapeWhitespace (GetString s "beautify.prefix") = "" ∧
        UnescapeWhitespace (GetString s "beautify.indent") = "") →
      Get (checkConfig E s).store "minify" = Get s "minify") := by
  obtain ⟨t, out, heq, hk⟩ := checkConfig_ok_beautify E s hok
  have hp : GetString t "beautify.prefix" = GetString s "beautify.prefix" := by
    rw [GetString, hk _ (by decide) (by decide) (by decide) (by decide) (by decide) (by decide)
      (by decide), GetString]
  have hi : GetString t "beautify.indent" = GetString s "beautify.indent" := by
    rw [GetString, hk _ (by decide) (by decide) (by decide) (by decide) (by decide) (by decide)
      (by decide), GetString]
  have hm : Get t "minify" = Get s "minify" :=
    hk _ (by decide) (by decide) (by decide) (by decide) (by decide) (by decide) (by decide)
  constructor
  · intro h
    rw [GetBool, heq, checkBeautify_minify, hp, hi, if_pos h]
    exact ToBool_str_true
  · intro h
    rw [heq, checkBeautify_minify, hp, hi, if_neg h, hm]

/-- Witness of C6, amended: with both beautify strings empty, `minify` reads
as true after the call. -/
theorem checkConfig_minify_witness :
    GetBool (checkConfig sampleEnv
      (Set goodStore "beautify.indent" (Value.str ""))).store "minify" = true :=
  (checkConfig_minify sampleEnv (Set goodStore "beautify.indent" (Value.str ""))
    (by decide)).1 (by decide)

/-- C7: on a store that passes every check before the scrape-toggle check,
if `scrape.classes` and `scrape.careerPlans` both read as false then
`checkConfig` fails with the conflict error; and if one of the two reads as
true once the plan list has been looked at (the store keeps these values to
the end of the call), the check does not fail and `checkConfig` succeeds. -/
theorem checkConfig_scrape_toggle (E : Env) (s : Store)
    (hkeys : keysOK s) (hyear : yearOK E s) (hlevel : levelOK E s) (hperiod : periodOK E s)
    (hbuf : bufferOK E s) :
    (GetBool s "scrape.classes" = false → GetBool s "scrape.careerPlans" = false →
      (checkConfig E s).err
        = some "both scrape.classes and scrape.careerPlans can't be false. no work to do") ∧
    (GetBool (checkConfig E s).store "scrape.classes" = true ∨
        GetBool (checkConfig E s).store "scrape.careerPlans" = true →
      (checkConfig E s).err = none) ∧
    (GetBool (checkConfig E s).store "scrape.classes" = GetBool s "scrape.classes") ∧
    (GetBool (checkConfig E s).store "scrape.careerPlans" =
      if GetStringSlice s "plans" = [] then false else GetBool s "scrape.careerPlans") := by
  have hb : ¬ GetInt E s "concurrent.classBufferMax" < 1 := by
    simp only [bufferOK] at hbuf
    omega
  have hy' : ¬ (GetInt E s "filter.year" > 2050 ∨ GetInt E s "filter.year" < 2000) := by
    simp only [yearOK] at hyear
    omega
  have herr : (checkConfig E s).err = if scrapeOK s then none else some errNoWork := by
    rw [checkConfig_err, if_neg hkeys, if_neg hy', if_neg (not_not.2 hlevel),
      if_neg (not_not.2 hperiod), if_neg hb]
  have hcl : GetBool (checkConfig E s).store "scrape.classes" = GetBool s "scrape.classes" := by
    rw [GetBool, checkConfig_Get E s _ (by decide) (by decide) (by decide) (by decide)
      (by decide) (by decide) (by decide) (by decide) (by decide) (by decide), GetBool]
  have hcp := checkConfig_careerPlans E s hkeys hyear hlevel hperiod hbuf
  refine ⟨?_, ?_, hcl, hcp⟩
  · intro h1 h2
    rw [herr, if_neg]
    · rfl
    · simp [scrapeOK, h1, h2]
  · intro h
    rw [herr, if_pos]
    rw [hcl, hcp] at h
    rcases h with h | h
    · exact Or.inl h
    · by_cases hp : GetStringSlice s "plans" = []
      · simp [hp] at h
      · rw [if_neg hp] at h
        exact Or.inr ⟨h, hp⟩

/-- Witness of C7: with both toggles false the accepted store is rejected
with the conflict error. -/
theorem checkConfig_scrape_toggle_witness :
    (checkConfig sampleEnv (Set (Set goodStore "scrape.classes" (Value.bool false))
        "scrape.careerPlans" (Value.bool false))).err
      = some "both scrape.classes and scrape.careerPlans can't be false. no work to do" :=
  (checkConfig_scrape_toggle sampleEnv (Set (Set goodStore "scrape.classes" (Value.bool false))
      "scrape.careerPlans" (Value.bool false))
    (by decide) (by decide) (by decide) (by decide) (by decide)).1 (by decide) (by decide)

/-- C8: on a store that passes every check before the buffer check, with `b`
the integer read as `concurrent.classBufferMax`, `checkConfig` fails with the
buffer error exactly when `b < 1`; and whatever the outcome, the store holds
under `concurrent.classBufferMax` what it held before the call. -/
theorem checkConfig_classBufferMax (E : Env) (s : Store) (b : Int)
    (hkeys : keysOK s) (hyear : yearOK E s) (hlevel : levelOK E s) (hperiod : periodOK E s)
    (hb : GetInt E s "concurrent.classBufferMax" = b) :
    ((checkConfig E s).err
        = some "concurrent.classBufferMax too low or not found. Must be at least 1" ↔ b < 1) ∧
    Get (checkConfig E s).store "concurrent.classBufferMax"
      = Get s "concurrent.classBufferMax" ∧
    GetInt E (checkConfig E s).store "concurrent.classBufferMax" = b := by
  have hy' : ¬ (GetInt E s "filter.year" > 2050 ∨ GetInt E s "filter.year" < 2000) := by
    simp only [yearOK] at hyear
    omega
  have hget := checkConfig_Get E s "concurrent.classBufferMax" (by decide) (by decide)
    (by decide) (by decide) (by decide) (by decide) (by decide) (by decide) (by decide)
    (by decide)
  refine ⟨?_, hget, ?_⟩
  · rw [checkConfig_err, if_neg hkeys, if_neg hy', if_neg (not_not.2 hlevel),
      if_neg (not_not.2 hperiod), hb]
    by_cases h : b < 1
    · simp only [h, if_true, iff_true]
      rfl
    · simp only [h, if_false, iff_false]
      split_ifs
      · simp
      · simp only [Option.some.injEq]
        decide
  · rw [GetInt, hget, ← hb, GetInt]

/-- Witness of C8: a buffer size of 0 in the accepted store is rejected with
the buffer error, and the store still holds the 0. -/
theorem checkConfig_classBufferMax_witness :
    (checkConfig sampleEnv (Set goodStore "concurrent.classBufferMax" (Value.int 0))).err
      = some "concurrent.classBufferMax too low or not found. Must be at least 1" ∧
    GetInt sampleEnv
      (checkConfig sampleEnv (Set goodStore "concurrent.classBufferMax" (Value.int 0))).store
      "concurrent.classBufferMax" = 0 :=
  have h := checkConfig_classBufferMax sampleEnv
    (Set goodStore "concurrent.classBufferMax" (Value.int 0)) 0
    (by decide) (by decide) (by decide) (by decide) (by decide)
  ⟨h.1.2 (by decide), h.2.2⟩

/-- C9: when `checkConfig` succeeds and `t` is the integer read as
`concurrent.threads` before the call, the value read after the call is 0 if
`t ≤ 1` and `t` if `t ≥ 2`; so it is neither 1 nor negative. -/
theorem checkConfig_threads (E : Env) (s : Store) (t : Int)
    (hok : (checkConfig E s).err = none)
    (ht : GetInt E s "concurrent.threads" = t) :
    (t ≤ 1 → GetInt E (checkConfig E s).store "concurrent.threads" = 0) ∧
    (2 ≤ t → GetInt E (checkConfig E s).store "concurrent.threads" = t) ∧
    GetInt E (checkConfig E s).store "concurrent.threads" ≠ 1 ∧
    0 ≤ GetInt E (checkConfig E s).store "concurrent.threads" := by
  obtain ⟨l, p, -, -, heq⟩ := checkConfig_ok_inv E s hok
  have hrd : GetInt E (Set (Set s "filter.level" (Value.str l)) "filter.period" (Value.str p))
      "concurrent.threads" = t := by
    rw [← ht]
    simp [GetInt, Get_Set]
  rw [heq, checkDelays_threads, hrd]
  refine ⟨?_, ?_, ?_, ?_⟩
  · intro h
    split_ifs <;> omega
  · intro h
    rw [if_neg (by omega)]
  · split_ifs <;> omega
  · split_ifs <;> omega

/-- Witness of C9: a thread count of -3 in the accepted store becomes 0. -/
theorem checkConfig_threads_witness :
    GetInt sampleEnv
      (checkConfig sampleEnv (Set goodStore "concurrent.threads" (Value.int (-3)))).store
      "concurrent.threads" = 0 :=
  (checkConfig_threads sampleEnv (Set goodStore "concurrent.threads" (Value.int (-3))) (-3)
    (by decide) (by decide)).1 (by decide)

/-- C10: when `checkConfig` succeeds, `beautify.prefix` and `beautify.indent`
read after the call as `UnescapeWhitespace` of what they read before it. This
holds for strings with characters other than white space too: those are
reported on standard output, and no value of the two keys makes the call
fail. -/
theorem checkConfig_beautify_unescaped (E : Env) (s : Store)
    (hok : (checkConfig E s).err = none) :
    GetString (checkConfig E s).store "beautify.prefix"
      = UnescapeWhitespace (GetString s "beautify.prefix") ∧
    GetString (checkConfig E s).store "beautify.indent"
      = UnescapeWhitespace (GetString s "beautify.indent") ∧
    (TrimSpace (UnescapeWhitespace (GetString s "beautify.prefix")) ≠ "" ∨
        TrimSpace (UnescapeWhitespace (GetString s "beautify.indent")) ≠ "" →
      warnBeautify (UnescapeWhitespace (GetString s "beautify.prefix"))
        (UnescapeWhitespace (GetString s "beautify.indent")) ∈ (checkConfig E s).out) ∧
    (∀ a b : Value,
      (checkConfig E (Set (Set s "beautify.prefix" a) "beautify.indent" b)).err = none) := by
  obtain ⟨t, out, heq, hk⟩ := checkConfig_ok_beautify E s hok
  have hp : GetString t "beautify.prefix" = GetString s "beautify.prefix" := by
    rw [GetString, hk _ (by decide) (by decide) (by decide) (by decide) (by decide) (by decide)
      (by decide), GetString]
  have hi : GetString t "beautify.indent" = GetString s "beautify.indent" := by
    rw [GetString, hk _ (by decide) (by decide) (by decide) (by decide) (by decide) (by decide)
      (by decide), GetString]
  refine ⟨?_, ?_, ?_, ?_⟩
  · rw [heq, checkBeautify_pfx, hp]
  · rw [heq, checkBeautify_indt, hi]
  · intro h
    rw [heq, ← hp, ← hi]
    apply checkBeautify_out
    rw [hp, hi]
    exact h
  · intro a b
    obtain ⟨-, hy, hl, hpd, hb, hsc⟩ := (checkConfig_err_none_iff E s).1 hok
    rw [checkConfig_err_none_iff]
    refine ⟨?_, ?_, ?_, ?_, ?_, ?_⟩
    · intro h0
      have := (AllKeys_length_eq_zero _).1 h0
      simp [Set] at this
    · simpa [yearOK, GetInt, Get_Set] using hy
    · simpa [levelOK, GetString, Get_Set] using hl
    · simpa [periodOK, GetString, Get_Set] using hpd
    · simpa [bufferOK, GetInt, Get_Set] using hb
    · simpa [scrapeOK, GetBool, GetStringSlice, Get_Set] using hsc

/-- Witness of C10: the strings `--\t` and `x\n`, written with escapes, are
accepted and read after the call with a real tab and a real newline. -/
theorem checkConfig_beautify_unescaped_witness :
    GetString (checkConfig sampleEnv dashStore).store "beautify.prefix" = "--\t" ∧
    GetString (checkConfig sampleEnv dashStore).store "beautify.indent" = "x\n" ∧
    (checkConfig sampleEnv dashStore).out = [warnBeautify "--\t" "x\n"] :=
  have h := checkConfig_beautify_unescaped sampleEnv dashStore (by decide)
  ⟨h.1.trans (by decide), h.2.1.trans (by decide), by decide⟩

/-! ## Texts of the errors -/

theorem append_ne_of_get (a b l p : String) (n : Nat)
    (ha : n < a.data.length) (hb : n < b.data.length)
    (h : a.data.get? n ≠ b.data.get? n) : a ++ l ≠ b ++ p := by
  intro heq
  have h2 := congrArg (fun x : String => x.data.get? n) heq
  simp only [String.data_append, List.get?_eq_getElem?] at h2 h
  rw [List.getElem?_append_left ha, List.getElem?_append_left hb] at h2
  exact h h2

theorem errLevel_ne_errPeriod (l p : String) : errLevel l ≠ errPeriod p :=
  append_ne_of_get _ _ l p 11 (by decide) (by decide) (by decide)

theorem errLevel_ne_errBufferMax (l : String) : errLevel l ≠ errBufferMax := by
  have h := append_ne_of_get "bad filter.level in config. got " errBufferMax l "" 0
    (by decide) (by decide) (by decide)
  simpa [errLevel] using h

theorem errLevel_ne_errNoWork (l : String) : errLevel l ≠ errNoWork := by
  have h := append_ne_of_get "bad filter.level in config. got " errNoWork l "" 1
    (by decide) (by decide) (by decide)
  simpa [errLevel] using h

theorem checkDelays_rand_ms (E : Env) (s : Store) :
    GetInt E (checkDelays E s).store "request-delay.rand_ms" =
      if GetInt E s "request-delay.rand_ms" < 0 then 0
      else GetInt E s "request-delay.rand_ms" := by
  have h : ∀ (t : Store) (out : List String),
      Get (checkScrape E t out).store "request-delay.rand_ms"
        = Get t "request-delay.rand_ms" := fun t out =>
    checkScrape_Get E t out _ (by decide) (by decide) (by decide) (by decide) (by decide)
  simp only [GetInt, checkDelays, h, Get_ite, Get_Set]
  simp only [apply_ite (ToInt E)]
  simp [ToInt]

theorem checkScrape_login_user (E : Env) (s : Store) (out : List String)
    (hok : (checkScrape E s out).err = none) :
    Get (checkScrape E s out).store "login.user" =
      if GetString s "login.password" = "" then some (Value.str "") else Get s "login.user" := by
  have h : ∀ (t : Store) (o : List String),
      Get (checkBeautify t o).store "login.user" = Get t "login.user" :=
    fun t o => checkBeautify_Get t o _ (by decide) (by decide) (by decide)
  unfold checkScrape at hok ⊢
  simp only [] at hok ⊢
  split_ifs at hok ⊢ <;> simp [h, Get_Set]

theorem checkConfig_login_user (E : Env) (s : Store) (hok : (checkConfig E s).err = none) :
    Get (checkConfig E s).store "login.user" =
      if GetString s "login.password" = "" then some (Value.str "") else Get s "login.user" := by
  obtain ⟨l, p, -, -, heq⟩ := checkConfig_ok_inv E s hok
  rw [heq] at hok ⊢
  unfold checkDelays at hok ⊢
  simp only [] at hok ⊢
  rw [checkScrape_login_user E _ _ hok]
  simp [GetString, Get_ite, Get_Set]

theorem checkConfig_level_written (E : Env) (s : Store)
    (hk : keysOK s) (hy : yearOK E s) (hl : levelOK E s) :
    switchLevel E (GetString s "filter.level")
      = some (GetString (checkConfig E s).store "filter.level") := by
  by_cases hp : periodOK E s
  · obtain ⟨l, p, hl', -, heq⟩ := checkConfig_reach_delays E s hk hy hl hp
    rw [hl', heq, GetString,
      checkDelays_Get _ _ _ (by decide) (by decide) (by decide) (by decide) (by decide)
        (by decide) (by decide) (by decide)]
    simp [Get_Set, ToString]
  · cases hl' : switchLevel E (GetString s "filter.level") with
    | none => exact absurd hl ((switchLevel_eq_none E _).1 hl')
    | some l =>
      have hperiod : GetString (Set s "filter.level" (Value.str l)) "filter.period"
          = GetString s "filter.period" := by
        simp [GetString, Get_Set]
      have hy' : ¬ (GetInt E s "filter.year" > 2050 ∨ GetInt E s "filter.year" < 2000) := by
        simp only [yearOK] at hy
        omega
      have hp' := (switchPeriod_eq_none E _).2 hp
      unfold checkConfig
      simp only [hk, hy', if_false, hl', hperiod, hp']
      simp [GetString, Get_Set, ToString]

/-- C11: when `checkConfig` succeeds and `login.password` reads as the empty
string before the call, `login.user` reads as the empty string after it,
whatever it held before; with a password, `login.user` is left as it was. -/
theorem checkConfig_login_user_cleared (E : Env) (s : Store)
    (hok : (checkConfig E s).err = none) :
    (GetString s "login.password" = "" → GetString (checkConfig E s).store "login.user" = "") ∧
    (GetString s "login.password" ≠ "" →
      Get (checkConfig E s).store "login.user" = Get s "login.user") := by
  have h := checkConfig_login_user E s hok
  constructor
  · intro hp
    rw [GetString, h, if_pos hp]
    rfl
  · intro hp
    rw [h, if_neg hp]

/-- Witness of C11: with an empty password the user `alice` is cleared. -/
theorem checkConfig_login_user_cleared_witness :
    GetString (Set goodStore "login.password" (Value.str "")) "login.user" = "alice" ∧
    GetString (checkConfig sampleEnv
      (Set goodStore "login.password" (Value.str ""))).store "login.user" = "" :=
  ⟨by decide,
   (checkConfig_login_user_cleared sampleEnv (Set goodStore "login.password" (Value.str ""))
     (by decide)).1 (by decide)⟩

/-- C12: when `checkConfig` succeeds and `r` is the integer read as
`request-delay.rand_ms` before the call, the value read after the call is 0
if `r < 0` and `r` if `r ≥ 0`, that is `max r 0`. -/
theorem checkConfig_rand_ms (E : Env) (s : Store) (r : Int)
    (hok : (checkConfig E s).err = none)
    (hr : GetInt E s "request-delay.rand_ms" = r) :
    (r < 0 → GetInt E (checkConfig E s).store "request-delay.rand_ms" = 0) ∧
    (0 ≤ r → GetInt E (checkConfig E s).store "request-delay.rand_ms" = r) ∧
    GetInt E (checkConfig E s).store "request-delay.rand_ms" = max r 0 := by
  obtain ⟨l, p, -, -, heq⟩ := checkConfig_ok_inv E s hok
  have hrd : GetInt E (Set (Set s "filter.level" (Value.str l)) "filter.period" (Value.str p))
      "request-delay.rand_ms" = r := by
    rw [← hr]
    simp [GetInt, Get_Set]
  rw [heq, checkDelays_rand_ms, hrd]
  refine ⟨?_, ?_, ?_⟩
  · intro h; rw [if_pos h]
  · intro h; rw [if_neg (by omega)]
  · split_ifs <;> omega

/-- Witness of C12: a random delay of -5 ms in the accepted store becomes 0. -/
theorem checkConfig_rand_ms_witness :
    GetInt sampleEnv
      (checkConfig sampleEnv (Set goodStore "request-delay.rand_ms" (Value.int (-5)))).store
      "request-delay.rand_ms" = 0 :=
  (checkConfig_rand_ms sampleEnv (Set goodStore "request-delay.rand_ms" (Value.int (-5))) (-5)
    (by decide) (by decide)).1 (by decide)

/-- C13: on a non-empty store with a valid year, `checkConfig` returns the
level error exactly when the lower-cased `filter.level` is neither one of the
ten synonyms nor a passthrough value; the error text ends with the string as
it was read; and a passthrough value is not rejected and reads after the call
as it read before. -/
theorem checkConfig_level_step (E : Env) (s : Store)
    (hkeys : keysOK s) (hyear : yearOK E s) :
    ((checkConfig E s).err
        = some ("bad filter.level in config. got " ++ GetString s "filter.level") ↔
      E.ToLower (GetString s "filter.level") ∉ levelSynonyms ++ levelPassthrough) ∧
    (E.ToLower (GetString s "filter.level") ∈ levelPassthrough →
      (checkConfig E s).err
        ≠ some ("bad filter.level in config. got " ++ GetString s "filter.level") ∧
      GetString (checkConfig E s).store "filter.level" = GetString s "filter.level") := by
  have hy' : ¬ (GetInt E s "filter.year" > 2050 ∨ GetInt E s "filter.year" < 2000) := by
    simp only [yearOK] at hyear
    omega
  have herr := checkConfig_err E s
  rw [if_neg hkeys, if_neg hy'] at herr
  have hiff : (checkConfig E s).err = some (errLevel (GetString s "filter.level")) ↔
      E.ToLower (GetString s "filter.level") ∉ levelSynonyms ++ levelPassthrough := by
    constructor
    · intro h hl
      rw [herr, if_neg (not_not.2 hl)] at h
      by_cases hp : periodOK E s
      · rw [if_neg (not_not.2 hp)] at h
        by_cases hb : GetInt E s "concurrent.classBufferMax" < 1
        · rw [if_pos hb] at h
          exact errLevel_ne_errBufferMax _ (Option.some.inj h).symm
        · rw [if_neg hb] at h
          by_cases hs : scrapeOK s
          · rw [if_pos hs] at h
            cases h
          · rw [if_neg hs] at h
            exact errLevel_ne_errNoWork _ (Option.some.inj h).symm
      · rw [if_pos hp] at h
        exact errLevel_ne_errPeriod _ _ (Option.some.inj h).symm
    · intro hl
      rw [herr, if_pos hl]
  refine ⟨hiff, ?_⟩
  intro hpass
  have hl : levelOK E s := List.mem_append_right _ hpass
  refine ⟨fun h => (hiff.1 h) hl, ?_⟩
  have hw := checkConfig_level_written E s hkeys hyear hl
  have hsw : switchLevel E (GetString s "filter.level") = some (GetString s "filter.level") := by
    simp only [levelPassthrough, List.mem_cons, List.not_mem_nil, or_false] at hpass
    rcases hpass with h | h | h | h | h <;> simp [switchLevel, h]
  rw [hsw] at hw
  exact (Option.some.inj hw).symm

/-- Witness of C13: the level `Doctorado` is rejected with its own spelling in
the text, and the passthrough level `2` is accepted and kept. -/
theorem checkConfig_level_step_witness :
    (checkConfig sampleEnv (Set goodStore "filter.level" (Value.str "Doctorado"))).err
      = some ("bad filter.level in config. got " ++ "Doctorado") ∧
    GetString (checkConfig sampleEnv
      (Set goodStore "filter.level" (Value.str "2"))).store "filter.level" = "2" :=
  ⟨(checkConfig_level_step sampleEnv (Set goodStore "filter.level" (Value.str "Doctorado"))
      (by decide) (by decide)).1.2 (by decide),
   ((checkConfig_level_step sampleEnv (Set goodStore "filter.level" (Value.str "2"))
      (by decide) (by decide)).2 (by decide)).2.trans (by decide)⟩

/-- C16 fails as stated: in a store that satisfies every other check and has
no `filter.year`, the year reads as 0 and `checkConfig` fails with the year
error. -/
theorem checkConfig_year_absent_counterexample :
    Get noYearStore "filter.year" = none ∧
    keysOK noYearStore ∧ levelOK sampleEnv noYearStore ∧ periodOK sampleEnv noYearStore ∧
    bufferOK sampleEnv noYearStore ∧ scrapeOK noYearStore ∧
    (checkConfig sampleEnv noYearStore).err
      = some "bad year! should be integer, managed to read: 0" := by
  refine ⟨by decide, by decide, by decide, by decide, by decide, by decide, by decide⟩

/-- C16, amended: the year range applies whether or not `filter.year` is set.
On a store with at least one key and no `filter.year`, the year reads as 0
and `checkConfig` fails with the year error, whose text ends in 0. -/
theorem checkConfig_year_absent (E : Env) (s : Store)
    (hkeys : keysOK s) (habs : Get s "filter.year" = none) :
    GetInt E s "filter.year" = 0 ∧
    (checkConfig E s).err
      = some ("bad year! should be integer, managed to read: " ++ toString (0 : Int)) := by
  have h0 : GetInt E s "filter.year" = 0 := by
    rw [GetInt, habs]
    rfl
  refine ⟨h0, ?_⟩
  rw [checkConfig_err, if_neg hkeys, h0, if_pos (by decide)]
  rfl

/-- Witness of C16, amended: the accepted store without `filter.year`. -/
theorem checkConfig_year_absent_witness :
    GetInt sampleEnv noYearStore "filter.year" = 0 ∧
    (checkConfig sampleEnv noYearStore).err
      = some ("bad year! should be integer, managed to read: " ++ toString (0 : Int)) :=
  checkConfig_year_absent sampleEnv noYearStore (by decide) (by decide)

/-- C17: on a store that passes every earlier check, with `scrape.classes`
false: if the plan list is empty, `checkConfig` fails with the conflict error,
also when `scrape.careerPlans` was true before the call; if the plan list is
not empty and `scrape.careerPlans` is true, the check passes and
`checkConfig` succeeds. -/
theorem checkConfig_toggle_sees_repair (E : Env) (s : Store)
    (hkeys : keysOK s) (hyear : yearOK E s) (hlevel : levelOK E s) (hperiod : periodOK E s)
    (hbuf : bufferOK E s) (hcl : GetBool s "scrape.classes" = false) :
    (GetStringSlice s "plans" = [] →
      (checkConfig E s).err
        = some "both scrape.classes and scrape.careerPlans can't be false. no work to do" ∧
      GetBool (checkConfig E s).store "scrape.careerPlans" = false) ∧
    (GetStringSlice s "plans" ≠ [] → GetBool s "scrape.careerPlans" = true →
      (checkConfig E s).err = none) := by
  have hb : ¬ GetInt E s "concurrent.classBufferMax" < 1 := by
    simp only [bufferOK] at hbuf
    omega
  have hy' : ¬ (GetInt E s "filter.year" > 2050 ∨ GetInt E s "filter.year" < 2000) := by
    simp only [yearOK] at hyear
    omega
  have herr : (checkConfig E s).err = if scrapeOK s then none else some errNoWork := by
    rw [checkConfig_err, if_neg hkeys, if_neg hy', if_neg (not_not.2 hlevel),
      if_neg (not_not.2 hperiod), if_neg hb]
  have hcp := checkConfig_careerPlans E s hkeys hyear hlevel hperiod hbuf
  constructor
  · intro hp
    constructor
    · rw [herr, if_neg]
      · rfl
      · simp [scrapeOK, hcl, hp]
    · rw [hcp, if_pos hp]
  · intro hp hc
    rw [herr, if_pos (Or.inr ⟨hc, hp⟩)]

/-- Witness of C17: with an empty plan list and `scrape.classes` false, the
store is rejected although `scrape.careerPlans` is true in it. -/
theorem checkConfig_toggle_sees_repair_witness :
    GetBool (Set noPlansStore "scrape.classes" (Value.bool false)) "scrape.careerPlans" = true ∧
    (checkConfig sampleEnv (Set noPlansStore "scrape.classes" (Value.bool false))).err
      = some "both scrape.classes and scrape.careerPlans can't be false. no work to do" :=
  ⟨by decide,
   ((checkConfig_toggle_sees_repair sampleEnv
      (Set noPlansStore "scrape.classes" (Value.bool false))
      (by decide) (by decide) (by decide) (by decide) (by decide) (by decide)).1
      (by decide)).1⟩

theorem yearOK_keysOK (E : Env) (s : Store) (h : yearOK E s) : keysOK s := by
  intro h0
  have hs := (AllKeys_length_eq_zero s).1 h0
  subst hs
  simp only [yearOK] at h
  have : GetInt E [] "filter.year" = 0 := rfl
  omega

/-- Writing a key that none of the checks reads does not change whether the
gate succeeds. -/
theorem checkConfig_err_Set (E : Env) (s : Store) (k : String) (v : Value)
    (h1 : k ≠ "filter.year") (h2 : k ≠ "filter.level") (h3 : k ≠ "filter.period")
    (h4 : k ≠ "concurrent.classBufferMax") (h5 : k ≠ "scrape.classes")
    (h6 : k ≠ "scrape.careerPlans") (h7 : k ≠ "plans") :
    (checkConfig E (Set s k v)).err = none ↔ (checkConfig E s).err = none := by
  have hy : yearOK E (Set s k v) ↔ yearOK E s := by
    simp [yearOK, GetInt, Get_Set, Ne.symm h1]
  have hl : levelOK E (Set s k v) ↔ levelOK E s := by
    simp [levelOK, GetString, Get_Set, Ne.symm h2]
  have hp : periodOK E (Set s k v) ↔ periodOK E s := by
    simp [periodOK, GetString, Get_Set, Ne.symm h3]
  have hb : bufferOK E (Set s k v) ↔ bufferOK E s := by
    simp [bufferOK, GetInt, Get_Set, Ne.symm h4]
  have hs : scrapeOK (Set s k v) ↔ scrapeOK s := by
    simp [scrapeOK, GetBool, GetStringSlice, Get_Set, Ne.symm h5, Ne.symm h6, Ne.symm h7]
  rw [checkConfig_err_none_iff, checkConfig_err_none_iff, hy, hl, hp, hb, hs]
  constructor
  · rintro ⟨-, a, b, c, d, e⟩
    exact ⟨yearOK_keysOK E s a, a, b, c, d, e⟩
  · rintro ⟨-, a, b, c, d, e⟩
    refine ⟨?_, a, b, c, d, e⟩
    intro h0
    have := (AllKeys_length_eq_zero _).1 h0
    simp [Set] at this

/-- C18: `checkConfig` succeeds exactly when the store has a key, the year is
in range, the lower-cased level is a synonym or a passthrough value, the
lower-cased period is a synonym, the buffer size is at least 1, and classes
are scraped or plans are scraped with a plan list that is not empty. Writing
any value to one of the seven repaired keys does not change whether it
succeeds, and a store without keys fails with the no-keys error. -/
theorem checkConfig_succeeds_iff (E : Env) (s : Store) :
    ((checkConfig E s).err = none ↔
      (AllKeys s).length ≠ 0 ∧
      (2000 ≤ GetInt E s "filter.year" ∧ GetInt E s "filter.year" ≤ 2050) ∧
      E.ToLower (GetString s "filter.level") ∈ levelSynonyms ++ levelPassthrough ∧
      E.ToLower (GetString s "filter.period") ∈ periodSynonyms ∧
      1 ≤ GetInt E s "concurrent.classBufferMax" ∧
      (GetBool s "scrape.classes" = true ∨
        (GetBool s "scrape.careerPlans" = true ∧ GetStringSlice s "plans" ≠ []))) ∧
    (∀ (k : String) (v : Value),
      k ∈ ["request-delay.minimum_ms", "request-delay.rand_ms", "concurrent.threads",
        "login.user", "login.password", "beautify.prefix", "beautify.indent"] →
      ((checkConfig E (Set s k v)).err = none ↔ (checkConfig E s).err = none)) ∧
    ((AllKeys s).length = 0 → (checkConfig E s).err = some "no keys found in file") := by
  refine ⟨checkConfig_err_none_iff E s, ?_, ?_⟩
  · intro k v hk
    simp only [List.mem_cons, List.not_mem_nil, or_false] at hk
    rcases hk with h | h | h | h | h | h | h <;> subst h <;>
      exact checkConfig_err_Set E s _ v (by decide) (by decide) (by decide) (by decide)
        (by decide) (by decide) (by decide)
  · intro h0
    rw [checkConfig_err, if_pos h0]
    rfl

/-- Witness of C18: the accepted store still succeeds with a thread count of
1, and the store without keys fails with the no-keys error. -/
theorem checkConfig_succeeds_iff_witness :
    (checkConfig sampleEnv (Set goodStore "concurrent.threads" (Value.int 1))).err = none ∧
    (checkConfig sampleEnv []).err = some "no keys found in file" :=
  ⟨((checkConfig_succeeds_iff sampleEnv goodStore).2.1 "concurrent.threads" (Value.int 1)
      (by decide)).2 (by decide),
   (checkConfig_succeeds_iff sampleEnv []).2.2 (by decide)⟩

/-- C19: `checkConfig` writes only the ten keys of `writtenKeys`: at every
other key the store holds after the call what it held before, whether the
call succeeds or fails; in particular at `filter.year`,
`concurrent.classBufferMax`, `login.password` and `scrape.classes`. -/
theorem checkConfig_frame (E : Env) (s : Store) :
    (∀ k : String, k ∉ writtenKeys → Get (checkConfig E s).store k = Get s k) ∧
    Get (checkConfig E s).store "filter.year" = Get s "filter.year" ∧
    Get (checkConfig E s).store "concurrent.classBufferMax"
      = Get s "concurrent.classBufferMax" ∧
    Get (checkConfig E s).store "login.password" = Get s "login.password" ∧
    Get (checkConfig E s).store "scrape.classes" = Get s "scrape.classes" := by
  have h : ∀ k : String, k ∉ writtenKeys → Get (checkConfig E s).store k = Get s k := by
    intro k hk
    simp only [writtenKeys, List.mem_cons, List.not_mem_nil, or_false, not_or] at hk
    obtain ⟨k1, k2, k3, k4, k5, k6, k7, k8, k9, k10⟩ := hk
    exact checkConfig_Get E s k k8 k9 k10 k6 k7 k3 k4 k5 k1 k2
  exact ⟨h, h _ (by decide), h _ (by decide), h _ (by decide), h _ (by decide)⟩

/-- Witness of C19: a call that fails at the buffer check, after the repairs
of the delays, leaves `filter.year` as it was. -/
theorem checkConfig_frame_witness :
    (checkConfig sampleEnv lowBufferStore).err ≠ none ∧
    Get (checkConfig sampleEnv lowBufferStore).store "filter.year" = some (Value.int 2020) :=
  ⟨by decide,
   ((checkConfig_frame sampleEnv lowBufferStore).1 "filter.year" (by decide)).trans
     (by decide)⟩

/-! ## Replacement of a two-character sequence by one character -/

theorem isPrefixOf_pair (a b x : Char) (xs : List Char) :
    [a, b].isPrefixOf (x :: xs) = (x == a && xs.head? == some b) := by
  cases xs with
  | nil => simp [List.isPrefixOf]
  | cons y ys =>
    simp only [List.isPrefixOf, List.head?_cons, Bool.and_true]
    rw [BEq.comm (a := a), BEq.comm (a := b)]
    simp

theorem hasPair_iff_contains (a b : Char) (l : List Char) :
    hasPair a b l = true ↔ [a, b] <:+: l := by
  induction l with
  | nil => simp [hasPair]
  | cons x xs ih =>
    rw [List.infix_cons_iff, ← ih]
    simp only [hasPair, Bool.or_eq_true, Bool.and_eq_true, beq_iff_eq]
    have hp : [a, b] <+: x :: xs ↔ (x = a ∧ xs.head? = some b) := by
      cases xs with
      | nil => simp [List.prefix_iff_eq_take]
      | cons y ys =>
        rw [List.cons_prefix_cons, List.cons_prefix_cons]
        simp [eq_comm]
    rw [hp]

theorem replaceAux_head (a b w : Char) (xs : List Char) :
    (replaceAux [a, b] [w] 0 xs).head? = some w ∨
      (replaceAux [a, b] [w] 0 xs).head? = xs.head? := by
  cases xs with
  | nil => right; rfl
  | cons x xs =>
    simp only [replaceAux]
    split
    · left; rfl
    · right; rfl

/-- After the replacement the sequence is gone. -/
theorem replaceAux_no_pair (a b w : Char) (hwa : w ≠ a) (hwb : w ≠ b) (xs : List Char) :
    ∀ k, hasPair a b (replaceAux [a, b] [w] k xs) = false := by
  induction xs with
  | nil => intro k; cases k <;> rfl
  | cons x xs ih =>
    intro k
    cases k with
    | succ k => simpa [replaceAux] using ih k
    | zero =>
      simp only [replaceAux]
      split
      · have hw : (w == a) = false := by simpa using hwa
        show hasPair a b (w :: replaceAux [a, b] [w] 1 xs) = false
        simp only [hasPair, ih, hw, Bool.false_and, Bool.or_false]
      · rename_i hpre
        rw [isPrefixOf_pair] at hpre
        simp only [hasPair, ih, Bool.or_false]
        rcases replaceAux_head a b w xs with h | h
        · rw [h]
          simp [hwb]
        · rw [h]
          simpa using hpre

/-- The replacement does not create another sequence. -/
theorem replaceAux_keeps_no_pair (a b w c d : Char) (hwc : w ≠ c) (hwd : w ≠ d)
    (xs : List Char) (h : hasPair c d xs = false) :
    ∀ k, hasPair c d (replaceAux [a, b] [w] k xs) = false := by
  induction xs with
  | nil => intro k; cases k <;> rfl
  | cons x xs ih =>
    simp only [hasPair, Bool.or_eq_false_iff] at h
    obtain ⟨hhead, htail⟩ := h
    intro k
    cases k with
    | succ k => simpa [replaceAux] using ih htail k
    | zero =>
      simp only [replaceAux]
      split
      · have hw : (w == c) = false := by simpa using hwc
        show hasPair c d (w :: replaceAux [a, b] [w] 1 xs) = false
        simp only [hasPair, ih htail, hw, Bool.false_and, Bool.or_false]
      · simp only [hasPair, ih htail, Bool.or_false]
        rcases replaceAux_head a b w xs with h | h
        · rw [h]
          simp [hwd]
        · rw [h]
          exact hhead

/-- Without the sequence there is nothing to replace. -/
theorem replaceAux_of_no_pair (a b w : Char) (xs : List Char) (h : hasPair a b xs = false) :
    replaceAux [a, b] [w] 0 xs = xs := by
  induction xs with
  | nil => rfl
  | cons x xs ih =>
    simp only [hasPair, Bool.or_eq_false_iff] at h
    obtain ⟨hhead, htail⟩ := h
    simp only [replaceAux, isPrefixOf_pair, hhead, Bool.false_eq_true, if_false, ih htail]

theorem UnescapeWhitespace_data (s : String) :
    (UnescapeWhitespace s).data =
      replaceAux ['\\', 'r'] ['\r'] 0
        (replaceAux ['\\', 't'] ['\t'] 0 (replaceAux ['\\', 'n'] ['\n'] 0 s.data)) := rfl

theorem UnescapeWhitespace_no_pairs (s : String) :
    hasPair '\\' 'n' (UnescapeWhitespace s).data = false ∧
    hasPair '\\' 't' (UnescapeWhitespace s).data = false ∧
    hasPair '\\' 'r' (UnescapeWhitespace s).data = false := by
  rw [UnescapeWhitespace_data]
  refine ⟨?_, ?_, ?_⟩
  · apply replaceAux_keeps_no_pair _ _ _ _ _ (by decide) (by decide)
    apply replaceAux_keeps_no_pair _ _ _ _ _ (by decide) (by decide)
    exact replaceAux_no_pair _ _ _ (by decide) (by decide) _ 0
  · apply replaceAux_keeps_no_pair _ _ _ _ _ (by decide) (by decide)
    exact replaceAux_no_pair _ _ _ (by decide) (by decide) _ 0
  · exact replaceAux_no_pair _ _ _ (by decide) (by decide) _ 0

theorem UnescapeWhitespace_idem (s : String) :
    UnescapeWhitespace (UnescapeWhitespace s) = UnescapeWhitespace s := by
  obtain ⟨hn, ht, hr⟩ := UnescapeWhitespace_no_pairs s
  apply String.ext
  rw [UnescapeWhitespace_data (UnescapeWhitespace s)]
  rw [replaceAux_of_no_pair _ _ _ _ hn, replaceAux_of_no_pair _ _ _ _ ht,
    replaceAux_of_no_pair _ _ _ _ hr]

/-- C20: `UnescapeWhitespace` is idempotent, and its result contains none of
the two-character sequences backslash-n, backslash-t, backslash-r. -/
theorem UnescapeWhitespace_idempotent (s : String) :
    UnescapeWhitespace (UnescapeWhitespace s) = UnescapeWhitespace s ∧
    ¬ ("\\n".data <:+: (UnescapeWhitespace s).data) ∧
    ¬ ("\\t".data <:+: (UnescapeWhitespace s).data) ∧
    ¬ ("\\r".data <:+: (UnescapeWhitespace s).data) := by
  obtain ⟨hn, ht, hr⟩ := UnescapeWhitespace_no_pairs s
  refine ⟨UnescapeWhitespace_idem s, ?_, ?_, ?_⟩
  · intro h
    have := (hasPair_iff_contains '\\' 'n' _).2 h
    rw [hn] at this
    cases this
  · intro h
    have := (hasPair_iff_contains '\\' 't' _).2 h
    rw [ht] at this
    cases this
  · intro h
    have := (hasPair_iff_contains '\\' 'r' _).2 h
    rw [hr] at this
    cases this

/-! ## The store after a failed call -/

theorem checkConfig_early_exit (E : Env) (s : Store)
    (h : ¬ keysOK s ∨ ¬ yearOK E s ∨ ¬ levelOK E s) : (checkConfig E s).store = s := by
  unfold checkConfig
  by_cases hk : (AllKeys s).length = 0
  · rw [if_pos hk]
  rw [if_neg hk]
  simp only []
  by_cases hy : GetInt E s "filter.year" > 2050 ∨ GetInt E s "filter.year" < 2000
  · rw [if_pos hy]
  rw [if_neg hy]
  have hl : ¬ levelOK E s := by
    rcases h with h | h | h
    · exact absurd hk h
    · exfalso
      apply h
      simp only [yearOK]
      omega
    · exact h
  rw [(switchLevel_eq_none E _).2 hl]

theorem checkConfig_period_exit (E : Env) (s : Store)
    (hk : keysOK s) (hy : yearOK E s) (hl : levelOK E s) (hp : ¬ periodOK E s) :
    ∃ l, (checkConfig E s).store = Set s "filter.level" (Value.str l) := by
  cases hl' : switchLevel E (GetString s "filter.level") with
  | none => exact absurd hl ((switchLevel_eq_none E _).1 hl')
  | some l =>
    refine ⟨l, ?_⟩
    have hperiod : GetString (Set s "filter.level" (Value.str l)) "filter.period"
        = GetString s "filter.period" := by
      simp [GetString, Get_Set]
    have hy' : ¬ (GetInt E s "filter.year" > 2050 ∨ GetInt E s "filter.year" < 2000) := by
      simp only [yearOK] at hy
      omega
    have hp' := (switchPeriod_eq_none E _).2 hp
    unfold checkConfig
    simp only [hk, hy', if_false, hl', hperiod, hp']

theorem checkScrape_fail_Get (E : Env) (s : Store) (out : List String)
    (h : (checkScrape E s out).err ≠ none) (k : String)
    (k1 : k ≠ "login.user") (k2 : k ≠ "scrape.careerPlans") :
    Get (checkScrape E s out).store k = Get s k := by
  unfold checkScrape at h ⊢
  simp only [] at h ⊢
  split_ifs at h ⊢ <;>
    first
    | exact absurd (checkBeautify_err _ _) h
    | simp only [Get_Set, k1, k2, if_false]

theorem checkDelays_fail_Get (E : Env) (s : Store) (h : (checkDelays E s).err ≠ none)
    (k : String) (k1 : k ≠ "login.user") (k2 : k ≠ "scrape.careerPlans")
    (k3 : k ≠ "request-delay.minimum_ms") (k4 : k ≠ "request-delay.rand_ms")
    (k5 : k ≠ "concurrent.threads") :
    Get (checkDelays E s).store k = Get s k := by
  unfold checkDelays at h ⊢
  simp only [] at h ⊢
  rw [checkScrape_fail_Get E _ _ h k k1 k2]
  simp only [Get_ite, Get_Set, k3, k4, k5, if_false, ite_self]

theorem checkConfig_fail_Get (E : Env) (s : Store) (h : (checkConfig E s).err ≠ none)
    (k : String) (k1 : k ≠ "login.user") (k2 : k ≠ "scrape.careerPlans")
    (k3 : k ≠ "request-delay.minimum_ms") (k4 : k ≠ "request-delay.rand_ms")
    (k5 : k ≠ "concurrent.threads") (k6 : k ≠ "filter.level") (k7 : k ≠ "filter.period") :
    Get (checkConfig E s).store k = Get s k := by
  by_cases he : keysOK s ∧ yearOK E s ∧ levelOK E s
  · obtain ⟨hk, hy, hl⟩ := he
    by_cases hp : periodOK E s
    · obtain ⟨l, p, -, -, heq⟩ := checkConfig_reach_delays E s hk hy hl hp
      rw [heq] at h ⊢
      rw [checkDelays_fail_Get E _ h k k1 k2 k3 k4 k5]
      simp only [Get_Set, k6, k7, if_false]
    · obtain ⟨l, hst⟩ := checkConfig_period_exit E s hk hy hl hp
      rw [hst]
      simp only [Get_Set, k6, if_false]
  · rw [checkConfig_early_exit E s (by tauto)]

/-- C15 fails as stated: with a buffer size of 0 and a minimum delay of 5 ms,
`checkConfig` returns the buffer error, and the store it leaves holds the
repaired delay of 1000 ms. -/
theorem checkConfig_failure_counterexample :
    (checkConfig sampleEnv lowBufferStore).err
      = some "concurrent.classBufferMax too low or not found. Must be at least 1" ∧
    Get lowBufferStore "request-delay.minimum_ms" = some (Value.int 5) ∧
    Get (checkConfig sampleEnv lowBufferStore).store "request-delay.minimum_ms"
      = some (Value.int 1000) := by
  refine ⟨by decide, by decide, by decide⟩

/-- C15, amended: a failing call stops at the failing check and keeps the
writes made before it. After the empty-store, year or level error the store is
the store before the call; after the period error only `filter.level` can
differ; after any error, only the seven keys written before the scrape-toggle
check can differ. -/
theorem checkConfig_failure_store (E : Env) (s : Store)
    (herr : (checkConfig E s).err ≠ none) :
    (¬ keysOK s ∨ ¬ yearOK E s ∨ ¬ levelOK E s → (checkConfig E s).store = s) ∧
    (keysOK s → yearOK E s → levelOK E s → ¬ periodOK E s →
      ∀ k : String, k ≠ "filter.level" → Get (checkConfig E s).store k = Get s k) ∧
    (∀ k : String,
      k ∉ ["filter.level", "filter.period", "request-delay.minimum_ms",
        "request-delay.rand_ms", "concurrent.threads", "login.user", "scrape.careerPlans"] →
      Get (checkConfig E s).store k = Get s k) := by
  refine ⟨checkConfig_early_exit E s, ?_, ?_⟩
  · intro hk hy hl hp k hne
    obtain ⟨l, hst⟩ := checkConfig_period_exit E s hk hy hl hp
    rw [hst]
    simp only [Get_Set, hne, if_false]
  · intro k hk
    simp only [List.mem_cons, List.not_mem_nil, or_false, not_or] at hk
    obtain ⟨k1, k2, k3, k4, k5, k6, k7⟩ := hk
    exact checkConfig_fail_Get E s herr k k6 k7 k3 k4 k5 k1 k2

/-- Witness of C15, amended: the call that fails at the buffer check leaves
`minify` and the beautify strings as they were, and a year out of range
leaves the whole store as it was. -/
theorem checkConfig_failure_store_witness :
    Get (checkConfig sampleEnv lowBufferStore).store "beautify.indent"
      = Get lowBufferStore "beautify.indent" ∧
    (checkConfig sampleEnv (Set lowBufferStore "filter.year" (Value.int 1999))).store
      = Set lowBufferStore "filter.year" (Value.int 1999) :=
  ⟨(checkConfig_failure_store sampleEnv lowBufferStore (by decide)).2.2 "beautify.indent"
      (by decide),
   (checkConfig_failure_store sampleEnv (Set lowBufferStore "filter.year" (Value.int 1999))
      (by decide)).1 (Or.inr (Or.inl (by decide)))⟩

/-! ## The store after a successful call -/

theorem checkBeautify_Get_all (t : Store) (out : List String) (k : String) :
    Get (checkBeautify t out).store k =
      if k = "beautify.indent" then
        some (Value.str (UnescapeWhitespace (GetString t "beautify.indent")))
      else if k = "beautify.prefix" then
        some (Value.str (UnescapeWhitespace (GetString t "beautify.prefix")))
      else if k = "minify" then
        (if UnescapeWhitespace (GetString t "beautify.prefix") = "" ∧
            UnescapeWhitespace (GetString t "beautify.indent") = ""
         then some (Value.str "true") else Get t "minify")
      else Get t k := by
  by_cases h1 : k = "beautify.indent"
  · subst h1
    simp [checkBeautify, Get_Set]
  by_cases h2 : k = "beautify.prefix"
  · subst h2
    simp [checkBeautify, Get_Set]
  by_cases h3 : k = "minify"
  · subst h3
    simp only [checkBeautify_minify]
    simp
  rw [if_neg h1, if_neg h2, if_neg h3]
  exact checkBeautify_Get t out k h3 h2 h1

theorem checkScrape_ok_Get (E : Env) (s : Store) (out : List String)
    (hok : (checkScrape E s out).err = none) :
    ∃ t, checkScrape E s out = checkBeautify t out ∧
      (∀ k, k ≠ "login.user" → k ≠ "scrape.careerPlans" → Get t k = Get s k) ∧
      Get t "login.user" =
        (if GetString s "login.password" = "" then some (Value.str "")
         else Get s "login.user") ∧
      Get t "scrape.careerPlans" =
        (if GetStringSlice s "plans" = [] then some (Value.str "false")
         else Get s "scrape.careerPlans") := by
  unfold checkScrape at hok ⊢
  simp only [] at hok ⊢
  split_ifs at hok ⊢ <;>
    (refine ⟨_, rfl, ?_, ?_, ?_⟩
     · intro k k1 k2
       simp only [Get_Set, k1, k2, if_false]
     · simp_all [Get_Set]
     · simp_all [Get_Set, GetStringSlice])

theorem checkDelays_ok_Get (E : Env) (s : Store) (hok : (checkDelays E s).err = none) :
    ∃ t out, checkDelays E s = checkBeautify t out ∧
      (∀ k, k ≠ "request-delay.minimum_ms" → k ≠ "request-delay.rand_ms" →
        k ≠ "concurrent.threads" → k ≠ "login.user" → k ≠ "scrape.careerPlans" →
        Get t k = Get s k) ∧
      Get t "login.user" =
        (if GetString s "login.password" = "" then some (Value.str "")
         else Get s "login.user") ∧
      Get t "scrape.careerPlans" =
        (if GetStringSlice s "plans" = [] then some (Value.str "false")
         else Get s "scrape.careerPlans") ∧
      Get t "request-delay.minimum_ms" =
        (if GetInt E s "request-delay.minimum_ms" < 800 ∧
            GetInt E s "request-delay.minimum_ms" ≠ 42
         then some (Value.int 1000) else Get s "request-delay.minimum_ms") ∧
      Get t "request-delay.rand_ms" =
        (if GetInt E s "request-delay.rand_ms" < 0 then some (Value.int 0)
         else Get s "request-delay.rand_ms") ∧
      Get t "concurrent.threads" =
        (if GetInt E s "concurrent.threads" < 2 ∧ GetInt E s "concurrent.threads" ≠ 0
         then some (Value.int 0) else Get s "concurrent.threads") := by
  unfold checkDelays at hok ⊢
  simp only [] at hok ⊢
  obtain ⟨t, ht, hk, hu, hc⟩ := checkScrape_ok_Get E _ _ hok
  refine ⟨t, _, ht, ?_, ?_, ?_, ?_, ?_, ?_⟩
  · intro k k1 k2 k3 k4 k5
    rw [hk k k4 k5]
    simp only [Get_ite, Get_Set, k1, k2, k3, if_false, ite_self]
  · rw [hu]
    simp [GetString, Get_ite, Get_Set]
  · rw [hc]
    simp [GetStringSlice, Get_ite, Get_Set]
  · rw [hk _ (by decide) (by decide)]
    simp [GetInt, Get_ite, Get_Set]
  · rw [hk _ (by decide) (by decide)]
    simp [GetInt, Get_ite, Get_Set]
  · rw [hk _ (by decide) (by decide)]
    simp [GetInt, Get_ite, Get_Set]

/-- After a successful call the store reads at every key as `settled` says. -/
theorem checkConfig_ok_settled (E : Env) (s : Store) (hok : (checkConfig E s).err = none)
    (k : String) : Get (checkConfig E s).store k = settled E s k := by
  obtain ⟨l, p, hl, hp, heq⟩ := checkConfig_ok_inv E s hok
  rw [heq] at hok ⊢
  obtain ⟨t, out, ht, hk, hu, hc, hm, hr, hth⟩ := checkDelays_ok_Get E _ hok
  rw [ht, checkBeautify_Get_all]
  have hfr : ∀ k', k' ≠ "filter.level" → k' ≠ "filter.period" →
      Get (Set (Set s "filter.level" (Value.str l)) "filter.period" (Value.str p)) k'
        = Get s k' := by
    intro k' a b
    simp only [Get_Set, a, b, if_false]
  have hpfx : GetString t "beautify.prefix" = GetString s "beautify.prefix" := by
    rw [GetString, hk _ (by decide) (by decide) (by decide) (by decide) (by decide),
      hfr _ (by decide) (by decide), GetString]
  have hind : GetString t "beautify.indent" = GetString s "beautify.indent" := by
    rw [GetString, hk _ (by decide) (by decide) (by decide) (by decide) (by decide),
      hfr _ (by decide) (by decide), GetString]
  have hmin : Get t "minify" = Get s "minify" := by
    rw [hk _ (by decide) (by decide) (by decide) (by decide) (by decide),
      hfr _ (by decide) (by decide)]
  rw [hpfx, hind, hmin]
  unfold settled
  by_cases h1 : k = "beautify.indent"
  · simp only [h1, if_true]
  by_cases h2 : k = "beautify.prefix"
  · simp only [h1, h2, if_true, if_false]
  by_cases h3 : k = "minify"
  · simp only [h1, h2, h3, if_true, if_false]
  simp only [h1, h2, h3, if_false]
  by_cases h4 : k = "scrape.careerPlans"
  · subst h4
    rw [hc]
    simp [GetStringSlice, Get_Set]
  by_cases h5 : k = "login.user"
  · subst h5
    rw [hu]
    simp [GetString, Get_Set]
  by_cases h6 : k = "concurrent.threads"
  · subst h6
    rw [hth]
    simp [GetInt, Get_Set]
  by_cases h7 : k = "request-delay.rand_ms"
  · subst h7
    rw [hr]
    simp [GetInt, Get_Set]
  by_cases h8 : k = "request-delay.minimum_ms"
  · subst h8
    rw [hm]
    simp [GetInt, Get_Set]
  rw [hk k h8 h7 h6 h5 h4]
  simp only [h4, h5, h6, h7, h8, if_false]
  by_cases h9 : k = "filter.period"
  · subst h9
    simp [Get_Set, hp]
  by_cases h10 : k = "filter.level"
  · subst h10
    simp [Get_Set, hl]
  simp only [h9, h10, if_false, Get_Set]

/-! ## A second call -/

theorem switchLevel_stable (E : Env) (hst : constsStable E) (x l : String)
    (h : switchLevel E x = some l) : switchLevel E l = some l := by
  obtain ⟨h1, h2, h3, h4, h5, -⟩ := hst
  have h' := h
  unfold switchLevel at h'
  simp only [] at h'
  split_ifs at h' <;> simp only [Option.some.injEq] at h'
  · rw [← h']; exact h1
  · rw [← h']; exact h2
  · rw [← h']; exact h3
  · rw [← h']; exact h4
  · rw [← h']; exact h5
  · subst h'; exact h

theorem switchPeriod_stable (E : Env) (hst : constsStable E) (x p : String)
    (h : switchPeriod E x = some p) : switchPeriod E p = some p := by
  obtain ⟨-, -, -, -, -, h1, h2, h3, h4, h5⟩ := hst
  unfold switchPeriod at h
  simp only [] at h
  split_ifs at h <;> simp only [Option.some.injEq] at h
  · rw [← h]; exact h1
  · rw [← h]; exact h2
  · rw [← h]; exact h3
  · rw [← h]; exact h4
  · rw [← h]; exact h5

theorem ToInt_int (E : Env) (i : Int) : ToInt E (some (Value.int i)) = i := rfl

theorem settled_indt (E : Env) (s : Store) :
    settled E s "beautify.indent"
      = some (Value.str (UnescapeWhitespace (GetString s "beautify.indent"))) := by
  simp [settled]

theorem settled_pfx (E : Env) (s : Store) :
    settled E s "beautify.prefix"
      = some (Value.str (UnescapeWhitespace (GetString s "beautify.prefix"))) := by
  simp [settled]

theorem settled_minify (E : Env) (s : Store) :
    settled E s "minify" =
      if UnescapeWhitespace (GetString s "beautify.prefix") = "" ∧
          UnescapeWhitespace (GetString s "beautify.indent") = ""
      then some (Value.str "true") else Get s "minify" := by
  simp [settled]

theorem settled_careerPlans (E : Env) (s : Store) :
    settled E s "scrape.careerPlans" =
      if GetStringSlice s "plans" = [] then some (Value.str "false")
      else Get s "scrape.careerPlans" := by
  simp [settled]

theorem settled_login_user (E : Env) (s : Store) :
    settled E s "login.user" =
      if GetString s "login.password" = "" then some (Value.str "")
      else Get s "login.user" := by
  simp [settled]

theorem settled_threads (E : Env) (s : Store) :
    settled E s "concurrent.threads" =
      if GetInt E s "concurrent.threads" < 2 ∧ GetInt E s "concurrent.threads" ≠ 0
      then some (Value.int 0) else Get s "concurrent.threads" := by
  simp [settled]

theorem settled_rand_ms (E : Env) (s : Store) :
    settled E s "request-delay.rand_ms" =
      if GetInt E s "request-delay.rand_ms" < 0 then some (Value.int 0)
      else Get s "request-delay.rand_ms" := by
  simp [settled]

theorem settled_minimum_ms (E : Env) (s : Store) :
    settled E s "request-delay.minimum_ms" =
      if GetInt E s "request-delay.minimum_ms" < 800 ∧
          GetInt E s "request-delay.minimum_ms" ≠ 42
      then some (Value.int 1000) else Get s "request-delay.minimum_ms" := by
  simp [settled]

theorem settled_period (E : Env) (s : Store) :
    settled E s "filter.period"
      = (switchPeriod E (GetString s "filter.period")).map Value.str := by
  simp [settled]

theorem settled_level (E : Env) (s : Store) :
    settled E s "filter.level"
      = (switchLevel E (GetString s "filter.level")).map Value.str := by
  simp [settled]

theorem settled_other (E : Env) (s : Store) (k : String) (hk : k ∉ writtenKeys) :
    settled E s k = Get s k := by
  simp only [writtenKeys, List.mem_cons, List.not_mem_nil, or_false, not_or] at hk
  obtain ⟨k1, k2, k3, k4, k5, k6, k7, k8, k9, k10⟩ := hk
  simp only [settled, k1, k2, k3, k4, k5, k6, k7, k8, k9, k10, if_false]

/-- What a second call depends on: for constants that meet `constsStable`, a
second call of `checkConfig` on the store left by a successful call succeeds
too and leaves every key with the value it had after the first call. Every
key other than `filter.level` and `filter.period` is settled by `root.go`
alone; those two rest on the condition. -/
theorem checkConfig_twice_of_stable (E : Env) (s : Store) (hst : constsStable E)
    (hok : (checkConfig E s).err = none) :
    (checkConfig E (checkConfig E s).store).err = none ∧
    ∀ k : String, Get (checkConfig E (checkConfig E s).store).store k
      = Get (checkConfig E s).store k := by
  have hG : ∀ k, Get (checkConfig E s).store k = settled E s k :=
    checkConfig_ok_settled E s hok
  obtain ⟨hk, hy, hl, hp, hb, hsc⟩ := (checkConfig_err_none_iff E s).1 hok
  obtain ⟨l, hl'⟩ : ∃ l, switchLevel E (GetString s "filter.level") = some l := by
    cases h : switchLevel E (GetString s "filter.level") with
    | none => exact absurd hl ((switchLevel_eq_none E _).1 h)
    | some l => exact ⟨l, rfl⟩
  obtain ⟨p, hp'⟩ : ∃ p, switchPeriod E (GetString s "filter.period") = some p := by
    cases h : switchPeriod E (GetString s "filter.period") with
    | none => exact absurd hp ((switchPeriod_eq_none E _).1 h)
    | some p => exact ⟨p, rfl⟩
  have hl2 := switchLevel_stable E hst _ _ hl'
  have hp2 := switchPeriod_stable E hst _ _ hp'
  -- what the store left by the first call reads as
  have rother : ∀ k, k ∉ writtenKeys → Get (checkConfig E s).store k = Get s k :=
    fun k hk' => (hG k).trans (settled_other E s k hk')
  have rlevel : GetString (checkConfig E s).store "filter.level" = l := by
    rw [GetString, hG, settled_level, hl']
    rfl
  have rperiod : GetString (checkConfig E s).store "filter.period" = p := by
    rw [GetString, hG, settled_period, hp']
    rfl
  have ryear := rother "filter.year" (by decide)
  have rbuf := rother "concurrent.classBufferMax" (by decide)
  have rcl := rother "scrape.classes" (by decide)
  have rplans := rother "plans" (by decide)
  have rpw := rother "login.password" (by decide)
  have rind : GetString (checkConfig E s).store "beautify.indent"
      = UnescapeWhitespace (GetString s "beautify.indent") := by
    rw [GetString, hG, settled_indt]
    rfl
  have rpfx : GetString (checkConfig E s).store "beautify.prefix"
      = UnescapeWhitespace (GetString s "beautify.prefix") := by
    rw [GetString, hG, settled_pfx]
    rfl
  have hok2 : (checkConfig E (checkConfig E s).store).err = none := by
    rw [checkConfig_err_none_iff]
    have hy2 : yearOK E (checkConfig E s).store := by
      simpa only [yearOK, GetInt, ryear] using hy
    refine ⟨yearOK_keysOK E _ hy2, hy2, ?_, ?_, ?_, ?_⟩
    · by_contra hc
      have := (switchLevel_eq_none E _).2 hc
      rw [rlevel, hl2] at this
      cases this
    · by_contra hc
      have := (switchPeriod_eq_none E _).2 hc
      rw [rperiod, hp2] at this
      cases this
    · simpa only [bufferOK, GetInt, rbuf] using hb
    · simp only [scrapeOK, GetBool, GetStringSlice, rcl, rplans, hG "scrape.careerPlans"]
      simp only [scrapeOK, GetBool, GetStringSlice] at hsc
      rcases hsc with h | ⟨h1, h2⟩
      · exact Or.inl h
      · right
        refine ⟨?_, h2⟩
        rw [settled_careerPlans, GetStringSlice, if_neg h2]
        exact h1
  refine ⟨hok2, ?_⟩
  intro k
  rw [checkConfig_ok_settled E _ hok2 k]
  by_cases h1 : k = "beautify.indent"
  · subst h1
    rw [settled_indt, rind, UnescapeWhitespace_idem, hG, settled_indt]
  by_cases h2 : k = "beautify.prefix"
  · subst h2
    rw [settled_pfx, rpfx, UnescapeWhitespace_idem, hG, settled_pfx]
  by_cases h3 : k = "minify"
  · subst h3
    rw [settled_minify, rpfx, rind, UnescapeWhitespace_idem, UnescapeWhitespace_idem, hG,
      settled_minify]
    split_ifs <;> rfl
  by_cases h4 : k = "scrape.careerPlans"
  · subst h4
    rw [settled_careerPlans, GetStringSlice, rplans, hG, settled_careerPlans, GetStringSlice]
    split_ifs <;> rfl
  by_cases h5 : k = "login.user"
  · subst h5
    rw [settled_login_user, GetString, rpw, hG, settled_login_user, GetString]
    split_ifs <;> rfl
  by_cases h6 : k = "concurrent.threads"
  · subst h6
    rw [settled_threads, GetInt, hG, settled_threads, GetInt]
    by_cases hc : ToInt E (Get s "concurrent.threads") < 2 ∧
        ToInt E (Get s "concurrent.threads") ≠ 0
    · rw [if_pos hc, ToInt_int]
      simp
    · simp only [hc, if_false]
  by_cases h7 : k = "request-delay.rand_ms"
  · subst h7
    rw [settled_rand_ms, GetInt, hG, settled_rand_ms, GetInt]
    by_cases hc : ToInt E (Get s "request-delay.rand_ms") < 0
    · rw [if_pos hc, ToInt_int]
      simp
    · simp only [hc, if_false]
  by_cases h8 : k = "request-delay.minimum_ms"
  · subst h8
    rw [settled_minimum_ms, GetInt, hG, settled_minimum_ms, GetInt]
    by_cases hc : ToInt E (Get s "request-delay.minimum_ms") < 800 ∧
        ToInt E (Get s "request-delay.minimum_ms") ≠ 42
    · rw [if_pos hc, ToInt_int]
      simp
    · simp only [hc, if_false]
  by_cases h9 : k = "filter.period"
  · subst h9
    rw [settled_period, rperiod, hp2, hG, settled_period, hp']
  by_cases h10 : k = "filter.level"
  · subst h10
    rw [settled_level, rlevel, hl2, hG, settled_level, hl']
  have hk' : k ∉ writtenKeys := by
    simp only [writtenKeys, List.mem_cons, List.not_mem_nil, or_false, not_or]
    exact ⟨h10, h9, h8, h7, h6, h5, h4, h3, h2, h1⟩
  rw [settled_other E _ k hk']

/-- With constants that are synonyms of their own groups, the second call on
the accepted store succeeds and `filter.level` still holds the constant of the
grado group. -/
theorem checkConfig_twice_of_stable_sample :
    (checkConfig stableEnv (checkConfig stableEnv goodStore).store).err = none ∧
    Get (checkConfig stableEnv (checkConfig stableEnv goodStore).store).store "filter.level"
      = some (Value.str "grado") :=
  have h := checkConfig_twice_of_stable stableEnv goodStore (by decide) (by decide)
  ⟨h.1, (h.2 "filter.level").trans (by decide)⟩

/-- With constants that the level table does not know, the second call is
rejected at the level switch: whether a second call succeeds is decided by
the values of the constants. -/
theorem checkConfig_second_call_unstable :
    ¬ constsStable sampleEnv ∧
    (checkConfig sampleEnv goodStore).err = none ∧
    (checkConfig sampleEnv (checkConfig sampleEnv goodStore).store).err
      = some "bad filter.level in config. got FilterLevel_Grado" := by
  refine ⟨by decide, by decide, by decide⟩

end Sgacrawl
